import Mathlib

/-!
# The FFN and CNN network containers of mlpack's `ann` module

A shallow embedding of `methods/ann/ffn_impl.hpp`, `methods/ann/cnn_impl.hpp` and
`methods/ann/layer/softmax_layer.hpp`.

* Matrices and cubes are records of their dimensions and their columns
  (slices); an access by index returns an `Option`, `none` standing for an
  access outside the object (an Armadillo bounds error or an unchecked read
  through `colptr`).
* The members of a container are the fields of `Container`; a member function
  takes the container and returns the container it leaves behind.
* The helpers the member functions call on the layer stack (`Forward`,
  `ResetParameter`, `OutputPrediction`, ...) are declared in `ffn.hpp`,
  `cnn.hpp` and `network_util.hpp`, which this development does not embed: they
  are the fields of `Collaborators`, over an arbitrary type `Net` of layer-stack
  states. A value of `Net` holds everything the layers own, their weights
  included, and a member function changes it only through the helpers it calls.
* `NetworkWeights(parameter, network)` makes the layers' weights views of the
  storage of the vector `parameter`. What these views show of a stack is
  `WeightViews.read`; a helper that writes a weight writes the vector, and the
  optimizer, which updates the vector in place, changes the weights:
  `Optimizer.Optimize` transforms the whole container.
* In the two constructors taking data the constructor parameter `network` shadows
  the member, so that the body initializes the constructor argument; `Forwarding`
  tells how the member initializer has related the two.
* The archive behind `Serialize` is modelled from the spec (`Archive.exchange`).
* The field `calls` of a container is a ghost log: every call of a helper or of
  the optimizer that a member function makes appends one entry.
* `SoftmaxLayer::Forward` and `SoftmaxLayer::Backward` are functions over an
  arbitrary ordered field; the exponential and the constants of
  `arma::trunc_exp` are the fields of `Exponential`.
-/

namespace mlpack

/-! ## Dense matrices and cubes -/

/-- Dense matrix `arma::mat`: the row count and the columns, in order. -/
structure Mat (α : Type) where
  n_rows : Nat
  cols : List (List α)
deriving DecidableEq, Repr

namespace Mat

variable {α : Type}

/-- Column count `n_cols`. -/
def n_cols (m : Mat α) : Nat := m.cols.length

/-- Element count `n_elem`. -/
def n_elem (m : Mat α) : Nat := m.n_rows * m.n_cols

/-- Default-constructed matrix `arma::mat()`, of size 0 x 0. -/
def empty : Mat α := ⟨0, []⟩

/-- Matrix `arma::mat(rows, cols)`; its entries are unspecified until written and
are represented by `default`. -/
def alloc [Inhabited α] (rows cols : Nat) : Mat α :=
  ⟨rows, List.replicate cols (List.replicate rows default)⟩

/-- Column vector holding the entries `v`. -/
def ofCol (v : List α) : Mat α := ⟨v.length, [v]⟩

/-- Read of `m.col(i)`. -/
def col (m : Mat α) (i : Nat) : Option (List α) := m.cols[i]?

/-- The `n_rows x 1` matrix over column `i`,
`arma::mat(m.colptr(i), m.n_rows, 1, false, true)`. -/
def colVec (m : Mat α) (i : Nat) : Option (Mat α) :=
  (m.cols[i]?).map fun v => ⟨m.n_rows, [v]⟩

/-- Assignment `m.col(i) = v`: the column must exist and `v` must have `n_rows`
entries. -/
def setCol (m : Mat α) (i : Nat) (v : List α) : Option (Mat α) :=
  if i < m.n_cols ∧ v.length = m.n_rows then some { m with cols := m.cols.set i v } else none

end Mat

/-- Dense cube `arma::cube`: row and column count of every slice, and the slices
(each a list of columns), in order. -/
structure Cube (α : Type) where
  n_rows : Nat
  n_cols : Nat
  slices : List (List (List α))
deriving DecidableEq, Repr

namespace Cube

variable {α : Type}

/-- Slice count `n_slices`. -/
def n_slices (q : Cube α) : Nat := q.slices.length

/-- Default-constructed cube `arma::cube()`. -/
def empty : Cube α := ⟨0, 0, []⟩

/-- Sub-cube `q.slices(first, last)`; Armadillo rejects `first > last` and
`last >= n_slices`. -/
def slicesRange (q : Cube α) (first last : Nat) : Option (Cube α) :=
  if first ≤ last ∧ last < q.n_slices then
    some { q with slices := (q.slices.drop first).take (last - first + 1) }
  else none

end Cube

/-! ## The helpers on the layer stack and the container state -/

/-- Entries of the ghost call log. -/
inductive Call where
  | Initialize
  | NetworkWeights
  | Optimize
  | ResetParameter
  | Forward
  | OutputPrediction
  | OutputError
  | NetworkGradients
  | Backward
  | UpdateGradients
deriving DecidableEq, Repr

/-- The helpers of `ffn.hpp`, `cnn.hpp` and `network_util.hpp` that the member
functions call, for a layer stack whose state has type `Net` and whose examples
have type `Example`.

* `layerWeightSizes net`: the weight size every layer of the stack reports, in
  stack order.
* `NetworkWeights parameter net`: binds the layers' weights to `parameter`.
* `ResetParameter deterministic net`: the helper reads the member `deterministic`.
* `Forward input net`.
* `OutputPrediction net`: the out-parameter `output`, the column the output layer
  predicts from the last layer's activation. An output layer yields a column of
  `outputRows` entries for every example (`OutputPrediction_rows`).
* `OutputError target error net`: the loss and the new content of `error`.
* `NetworkGradients gradient net`: binds the layers' gradients to `gradient`.
* `Backward error net`.
* `UpdateGradients (gradient, net)`: writes the layers' gradients, which
  `NetworkGradients` has made views of `gradient`; so the vector is part of what
  it transforms.

The helpers are handed the stack, not the container: they do not reach the bound
batch, and they reach the parameter vector only through the layers' weights, which
are views of it (`WeightViews`). -/
structure Collaborators (Net Example α : Type) where
  layerWeightSizes : Net → List Nat
  NetworkWeights : Mat α → Net → Net
  ResetParameter : Bool → Net → Net
  Forward : Example → Net → Net
  outputRows : Nat
  OutputPrediction : Net → List α
  OutputPrediction_rows : ∀ net, (OutputPrediction net).length = outputRows
  OutputError : Mat α → Mat α → Net → α × Mat α
  NetworkGradients : Mat α → Net → Mat α × Net
  Backward : Mat α → Net → Net
  UpdateGradients : Mat α × Net → Mat α × Net

/-- The layers' weights as views of the parameter vector: once `NetworkWeights` has
bound a stack, `read net` is the content of the vector's storage as the layers of
`net` hold it, the flattened weights in stack order. A helper that changes what
`read` returns has written the parameter vector. -/
structure WeightViews (Net α : Type) where
  read : Net → Mat α

/-- The relation that the member initializer `network(std::forward<LayerType>(network))`
of the two constructors taking data sets up between the member `network` and the
constructor argument of the same name, which the body of these constructors uses.

* `reference`: the stack type is a tuple of references, so that member and argument
  denote the same layers.
* `copy`: the argument is an lvalue; the member is a copy and the argument stays
  as it is.
* `move movedFrom`: the argument is an rvalue; the member takes its value and the
  argument is left in the state `movedFrom` gives. -/
inductive Forwarding (Net : Type) where
  | reference
  | copy
  | move (movedFrom : Net → Net)

/-- The constructor argument after the member initializers have run. -/
def Forwarding.argument {Net : Type} (forwarding : Forwarding Net) (network : Net) : Net :=
  match forwarding with
  | Forwarding.move movedFrom => movedFrom network
  | _ => network

/-- The member `network` once a helper has turned the constructor argument into
`argument`: the same layers for a tuple of references, the member as it was
otherwise. -/
def Forwarding.member {Net : Type} (forwarding : Forwarding Net) (member argument : Net) : Net :=
  match forwarding with
  | Forwarding.reference => argument
  | _ => member

/-- The data members of `FFN` and `CNN` (the two classes declare the same
members; `Batch` is `arma::mat` for `FFN` and `arma::cube` for `CNN`), and the
ghost log `calls`. The members `outputLayer` and `performanceFunc` never change
and are part of `Collaborators.OutputPrediction` and
`Collaborators.OutputError`. -/
structure Container (Net Batch α : Type) where
  network : Net
  predictors : Batch
  responses : Mat α
  parameter : Mat α
  numFunctions : Nat
  error : Mat α
  deterministic : Bool
  calls : List Call
deriving DecidableEq, Repr

/-- State of class `FFN`. -/
abbrev FFN (Net α : Type) := Container Net (Mat α) α

/-- State of class `CNN`. -/
abbrev CNN (Net α : Type) := Container Net (Cube α) α

/-- An optimizer `OptimizerType<NetworkType>`. It holds a reference to the
container, calls its `Evaluate` and `Gradient`, and updates the vector it is
handed (the member `parameter`) in place: a transformer of the container state
that also returns the final objective. -/
structure Optimizer (Net Batch α : Type) where
  Optimize : Container Net Batch α → Container Net Batch α × α

/-- An initialization rule: `value i j` is the value the rule gives entry
`(i, j)` of the matrix it fills. -/
structure InitializationRule (α : Type) where
  value : Nat → Nat → α

/-- Modelled from the spec: `Initialize(parameterVectorOut, totalSize, columns)`
of the initialization rule (`init_rules/` is not embedded here)
fills the vector with a `totalSize x columns` matrix of the rule's values. -/
def InitializationRule.Initialize {α : Type} (rule : InitializationRule α)
    (rows cols : Nat) : Mat α :=
  ⟨rows, (List.range cols).map fun j => (List.range rows).map fun i => rule.value i j⟩

/-- Modelled from the spec: `NetworkSize(network)` (`network_util.hpp` is not
embedded here) is the sum of the weight sizes of the layers of the
stack. -/
def NetworkSize {Net Example α : Type} (c : Collaborators Net Example α) (network : Net) : Nat :=
  (c.layerWeightSizes network).sum

section Calls

variable {Net Batch Example α : Type}

/-- Append an entry to the ghost log. -/
def record (e : Call) (s : Container Net Batch α) : Container Net Batch α :=
  { s with calls := s.calls ++ [e] }

/-- The call `ResetParameter(network)`. -/
def callResetParameter (c : Collaborators Net Example α) (s : Container Net Batch α) :
    Container Net Batch α :=
  record Call.ResetParameter { s with network := c.ResetParameter s.deterministic s.network }

/-- The call `Forward(input, network)`. -/
def callForward (c : Collaborators Net Example α) (input : Example)
    (s : Container Net Batch α) : Container Net Batch α :=
  record Call.Forward { s with network := c.Forward input s.network }

/-- The call `OutputPrediction(responsesTemp, network)`; the second component is
`responsesTemp` after the call. -/
def callOutputPrediction (c : Collaborators Net Example α) (s : Container Net Batch α) :
    Container Net Batch α × Mat α :=
  (record Call.OutputPrediction s, Mat.ofCol (c.OutputPrediction s.network))

/-- The call `OutputError(target, error, network)`; the second component is the
value returned. -/
def callOutputError (c : Collaborators Net Example α) (target : Mat α)
    (s : Container Net Batch α) : Container Net Batch α × α :=
  (record Call.OutputError { s with error := (c.OutputError target s.error s.network).2 },
    (c.OutputError target s.error s.network).1)

/-- The call `optimizer.Optimize(parameter)`. -/
def callOptimize (optimizer : Optimizer Net Batch α) (s : Container Net Batch α) :
    Container Net Batch α × α :=
  optimizer.Optimize (record Call.Optimize s)

/-- The two statements every constructor runs after its member initializers,
`initializeRule.Initialize(parameter, NetworkSize(network), 1);`
`NetworkWeights(parameter, network);`, where `network` is the member (the constructor
taking the stack only). -/
def initialization (c : Collaborators Net Example α) (initializeRule : InitializationRule α)
    (s : Container Net Batch α) : Container Net Batch α :=
  let s := record Call.Initialize
    { s with parameter := initializeRule.Initialize (NetworkSize c s.network) 1 }
  record Call.NetworkWeights { s with network := c.NetworkWeights s.parameter s.network }

/-- The same two statements in the body of a constructor whose parameter `network`
shadows the member (the two constructors taking data): `NetworkSize` and
`NetworkWeights` are applied to the constructor argument, `network` being the stack
the constructor was called with. The first component is the container, whose
member `network` is touched only where it denotes the layers of the argument; the
second component is the constructor argument after `NetworkWeights`. -/
def initializationShadowed (c : Collaborators Net Example α)
    (initializeRule : InitializationRule α) (forwarding : Forwarding Net)
    (s : Container Net Batch α) (network : Net) : Container Net Batch α × Net :=
  let argument := forwarding.argument network
  let s := record Call.Initialize
    { s with parameter := initializeRule.Initialize (NetworkSize c argument) 1 }
  let argument := c.NetworkWeights s.parameter argument
  (record Call.NetworkWeights { s with network := forwarding.member s.network argument },
    argument)

/-- Member function `Gradient(parameters, sampleIndex, gradient)`, the same text in `FFN` and
`CNN`; the first two arguments are unused. The second component is `gradient`
after the call. -/
def Container.Gradient (c : Collaborators Net Example α) (s : Container Net Batch α)
    (_parameters : Mat α) (_sampleIndex : Nat) (gradient : Mat α) :
    Container Net Batch α × Mat α :=
  let bound := c.NetworkGradients gradient s.network
  let s := record Call.NetworkGradients { s with network := bound.2 }
  let s := record Call.Backward { s with network := c.Backward s.error s.network }
  let updated := c.UpdateGradients (bound.1, s.network)
  (record Call.UpdateGradients { s with network := updated.2 }, updated.1)

/-- An archive of named values: `is_loading` tells a loading archive from a
saving one, `data` is the sequence of named values written so far (saving) or
still to be read (loading). -/
structure Archive (α : Type) where
  is_loading : Bool
  data : List (String × Mat α)
deriving DecidableEq, Repr

/-- Modelled from the spec: the archive operation `ar & data::CreateNVP(value, name)`
(the archive classes and the `serialize` member that mlpack gives `arma::Mat` are
not embedded here). By the spec, serialization persists and restores the flattened
parameter vector and nothing else, and deserialization must redistribute the vector
back into the layers via `NetworkWeights` before the network is usable. So a saving
archive appends the value under its name and leaves it as it is; a loading archive
returns the next value, which must have this name, as the new value of the vector.
The value read is in no layer until `NetworkWeights` has put it there. -/
def Archive.exchange (ar : Archive α) (name : String) (value : Mat α) :
    Option (Mat α × Archive α) :=
  if ar.is_loading then
    match ar.data with
    | (stored, loaded) :: rest =>
      if stored = name then some (loaded, { ar with data := rest }) else none
    | [] => none
  else
    some (value, { ar with data := ar.data ++ [(name, value)] })

/-- Member function `Serialize(ar, version)`, the same text in `FFN` and `CNN`:
`ar & data::CreateNVP(parameter, "parameter")`, and no other statement; the call
fails when a loading archive has no next value or one of another name. -/
def Container.Serialize (s : Container Net Batch α) (ar : Archive α) :
    Option (Container Net Batch α × Archive α) :=
  (ar.exchange "parameter" s.parameter).map fun r => ({ s with parameter := r.1 }, r.2)

end Calls

/-! ## Class FFN -/

namespace FFN

variable {Net α : Type}

/-- The members after the member initializers of a constructor and the default
construction of the others. `numFunctions` and `deterministic` are the values of
these members where a constructor does not initialize them. -/
def members (network : Net) (predictors responses : Mat α) (numFunctions : Nat)
    (deterministic : Bool) : FFN Net α :=
  { network := network, predictors := predictors, responses := responses,
    parameter := Mat.empty, numFunctions := numFunctions, error := Mat.empty,
    deterministic := deterministic, calls := [] }

/-- Member function `Train(predictors, responses, optimizer)` and, with `optimizer`
the optimizer that the overload builds from `*this`, `Train(predictors, responses)`.
The second component is the final objective, which the function logs; the timer
and the log are not part of the state. -/
def Train (optimizer : Optimizer Net (Mat α) α) (s : FFN Net α) (predictors responses : Mat α) :
    FFN Net α × α :=
  let s := { s with numFunctions := predictors.n_cols }
  let s := { s with predictors := predictors }
  let s := { s with responses := responses }
  callOptimize optimizer s

/-- Member function `Train(optimizer)`. -/
def TrainBound (optimizer : Optimizer Net (Mat α) α) (s : FFN Net α) : FFN Net α × α :=
  callOptimize optimizer s

/-- Constructor taking the data and an optimizer, called with the stack `network`.
Its parameter `network` shadows the member in the body, so that the initialization
acts on the constructor argument. The components are the object built and the final
objective that is logged. -/
def ctorOptimizer (c : Collaborators Net (Mat α) α) (forwarding : Forwarding Net) (network : Net)
    (predictors responses : Mat α) (optimizer : Optimizer Net (Mat α) α)
    (initializeRule : InitializationRule α) (deterministic : Bool) : FFN Net α × α :=
  let s := members network predictors responses predictors.n_cols deterministic
  let s := (initializationShadowed c initializeRule forwarding s network).1
  callOptimize optimizer s

/-- Constructor taking the data, called with the stack `network`; it ends in
`Train(predictors, responses)`, and `optimizer` is the optimizer that `Train` builds
from `*this`. Its parameter `network` shadows the member in the body, so that the
initialization acts on the constructor argument. -/
def ctorData (c : Collaborators Net (Mat α) α) (forwarding : Forwarding Net) (network : Net)
    (predictors responses : Mat α) (optimizer : Optimizer Net (Mat α) α)
    (initializeRule : InitializationRule α) (numFunctions : Nat) (deterministic : Bool) :
    FFN Net α × α :=
  let s := members network Mat.empty Mat.empty numFunctions deterministic
  let s := (initializationShadowed c initializeRule forwarding s network).1
  Train optimizer s predictors responses

/-- Constructor taking the layer stack and the output layer only; its parameters
are `network_` and `outputLayer_`, and `network` in the body is the member. -/
def ctor (c : Collaborators Net (Mat α) α) (network : Net)
    (initializeRule : InitializationRule α) (numFunctions : Nat) (deterministic : Bool) :
    FFN Net α :=
  let s := members network Mat.empty Mat.empty numFunctions deterministic
  initialization c initializeRule s

/-- The loop `for (size_t i = 1; i < predictors.n_cols; i++)` of `Predict`, run
for `count` iterations from index `i`. -/
def PredictLoop [Inhabited α] (c : Collaborators Net (Mat α) α) (predictors : Mat α) :
    Nat → Nat → FFN Net α × Mat α → Option (FFN Net α × Mat α)
  | 0, _, st => some st
  | count + 1, i, (s, responses) => do
    let input ← predictors.colVec i
    let s := callForward c input s
    let _ ← responses.colVec i
    let (s, responsesTemp) := callOutputPrediction c s
    let column ← responsesTemp.col 0
    let responses ← responses.setCol i column
    PredictLoop c predictors count (i + 1) (s, responses)

/-- Member function `Predict(predictors, responses)`; the second component is `responses` after
the call. -/
def Predict [Inhabited α] (c : Collaborators Net (Mat α) α) (s : FFN Net α) (predictors : Mat α) :
    Option (FFN Net α × Mat α) := do
  let s := { s with deterministic := true }
  let s := callResetParameter c s
  let input ← predictors.colVec 0
  let s := callForward c input s
  let (s, responsesTemp) := callOutputPrediction c s
  let responses : Mat α := Mat.alloc responsesTemp.n_elem predictors.n_cols
  let column ← responsesTemp.col 0
  let responses ← responses.setCol 0 column
  PredictLoop c predictors (predictors.n_cols - 1) 1 (s, responses)

/-- Member function `Evaluate(parameters, i, deterministic)`; the first argument is unused. The
second component is the value returned. -/
def Evaluate (c : Collaborators Net (Mat α) α) (s : FFN Net α) (_parameters : Mat α) (i : Nat)
    (deterministic : Bool) : Option (FFN Net α × α) := do
  let s := { s with deterministic := deterministic }
  let s := callResetParameter c s
  let input ← s.predictors.colVec i
  let s := callForward c input s
  let target ← s.responses.colVec i
  some (callOutputError c target s)

end FFN

/-! ## Class CNN -/

namespace CNN

variable {Net α : Type}

/-- The members after the member initializers of a constructor and the default
construction of the others. `numFunctions` and `deterministic` are the values of
these members where a constructor does not initialize them. -/
def members (network : Net) (predictors : Cube α) (responses : Mat α) (numFunctions : Nat)
    (deterministic : Bool) : CNN Net α :=
  { network := network, predictors := predictors, responses := responses,
    parameter := Mat.empty, numFunctions := numFunctions, error := Mat.empty,
    deterministic := deterministic, calls := [] }

/-- Member function `Train(predictors, responses, optimizer)` and, with `optimizer`
the optimizer that the overload builds from `*this`, `Train(predictors, responses)`.
The second component is the final objective, which the function logs; the timer
and the log are not part of the state. -/
def Train (optimizer : Optimizer Net (Cube α) α) (s : CNN Net α) (predictors : Cube α)
    (responses : Mat α) : CNN Net α × α :=
  let s := { s with numFunctions := predictors.n_cols }
  let s := { s with predictors := predictors }
  let s := { s with responses := responses }
  callOptimize optimizer s

/-- Member function `Train(optimizer)`. -/
def TrainBound (optimizer : Optimizer Net (Cube α) α) (s : CNN Net α) : CNN Net α × α :=
  callOptimize optimizer s

/-- Constructor taking the data and an optimizer, called with the stack `network`.
Its parameter `network` shadows the member in the body, so that the initialization
acts on the constructor argument. The components are the object built and the final
objective that is logged. -/
def ctorOptimizer (c : Collaborators Net (Cube α) α) (forwarding : Forwarding Net)
    (network : Net) (predictors : Cube α) (responses : Mat α)
    (optimizer : Optimizer Net (Cube α) α) (initializeRule : InitializationRule α)
    (deterministic : Bool) : CNN Net α × α :=
  let s := members network predictors responses predictors.n_cols deterministic
  let s := (initializationShadowed c initializeRule forwarding s network).1
  callOptimize optimizer s

/-- Constructor taking the data, called with the stack `network`; it ends in
`Train(predictors, responses)`, and `optimizer` is the optimizer that `Train` builds
from `*this`. Its parameter `network` shadows the member in the body, so that the
initialization acts on the constructor argument. -/
def ctorData (c : Collaborators Net (Cube α) α) (forwarding : Forwarding Net) (network : Net)
    (predictors : Cube α) (responses : Mat α) (optimizer : Optimizer Net (Cube α) α)
    (initializeRule : InitializationRule α) (numFunctions : Nat) (deterministic : Bool) :
    CNN Net α × α :=
  let s := members network Cube.empty Mat.empty numFunctions deterministic
  let s := (initializationShadowed c initializeRule forwarding s network).1
  Train optimizer s predictors responses

/-- Constructor taking the layer stack and the output layer only; its parameters
are `network_` and `outputLayer_`, and `network` in the body is the member. -/
def ctor (c : Collaborators Net (Cube α) α) (network : Net)
    (initializeRule : InitializationRule α) (numFunctions : Nat) (deterministic : Bool) :
    CNN Net α :=
  let s := members network Cube.empty Mat.empty numFunctions deterministic
  initialization c initializeRule s

/-- The loop `for (size_t i = 1; i < predictors.n_slices; i++)` of `Predict`, run
for `count` iterations from index `i`. -/
def PredictLoop [Inhabited α] (c : Collaborators Net (Cube α) α) (predictors : Cube α) :
    Nat → Nat → CNN Net α × Mat α → Option (CNN Net α × Mat α)
  | 0, _, st => some st
  | count + 1, i, (s, responses) => do
    let input ← predictors.slicesRange i i
    let s := callForward c input s
    let _ ← responses.colVec i
    let (s, responsesTemp) := callOutputPrediction c s
    let column ← responsesTemp.col 0
    let responses ← responses.setCol i column
    PredictLoop c predictors count (i + 1) (s, responses)

/-- Member function `Predict(predictors, responses)`; the second component is `responses` after
the call. -/
def Predict [Inhabited α] (c : Collaborators Net (Cube α) α) (s : CNN Net α)
    (predictors : Cube α) : Option (CNN Net α × Mat α) := do
  let s := { s with deterministic := true }
  let s := callResetParameter c s
  let input ← predictors.slicesRange 0 0
  let s := callForward c input s
  let (s, responsesTemp) := callOutputPrediction c s
  let responses : Mat α := Mat.alloc responsesTemp.n_elem predictors.n_slices
  let column ← responsesTemp.col 0
  let responses ← responses.setCol 0 column
  PredictLoop c predictors (predictors.n_slices - 1) 1 (s, responses)

/-- Member function `Evaluate(parameters, i, deterministic)`; the first argument is unused. The
second component is the value returned. -/
def Evaluate (c : Collaborators Net (Cube α) α) (s : CNN Net α) (_parameters : Mat α) (i : Nat)
    (deterministic : Bool) : Option (CNN Net α × α) := do
  let s := { s with deterministic := deterministic }
  let s := callResetParameter c s
  let input ← s.predictors.slicesRange i i
  let s := callForward c input s
  let target ← s.responses.colVec i
  some (callOutputError c target s)

end CNN

/-! ## Notions used to state the properties -/

section Notions

variable {Net Example α : Type}

/-- The examples of an `FFN` batch, in input order: column `i` as an
`n_rows x 1` matrix. -/
def FFN.examples (predictors : Mat α) : List (Mat α) :=
  predictors.cols.map fun v => ⟨predictors.n_rows, [v]⟩

/-- The examples of a `CNN` batch, in input order: slice `i` as a cube of one
slice. -/
def CNN.examples (predictors : Cube α) : List (Cube α) :=
  predictors.slices.map fun m => { predictors with slices := [m] }

/-- The stack after forward passes over `inputs`, in order, started in `net`. -/
def forwardAll (c : Collaborators Net Example α) (net : Net) (inputs : List Example) : Net :=
  inputs.foldl (fun n x => c.Forward x n) net

/-- The stack state in which `Predict` forwards example `i` of `inputs`: the stack
after `ResetParameter` with the flag `true` and the forward passes over the
examples before `i`. -/
def stackBefore (c : Collaborators Net Example α) (net : Net) (inputs : List Example)
    (i : Nat) : Net :=
  forwardAll c (c.ResetParameter true net) (inputs.take i)

/-- The column `Predict` writes for every example of `inputs`, when the first
forward pass starts in `net`. -/
def predictions (c : Collaborators Net Example α) : Net → List Example → List (List α)
  | _, [] => []
  | net, x :: xs => c.OutputPrediction (c.Forward x net) :: predictions c (c.Forward x net) xs

/-- The calls of `count` iterations of the loop of `Predict`. -/
def loopCalls : Nat → List Call
  | 0 => []
  | count + 1 => Call.Forward :: Call.OutputPrediction :: loopCalls count

end Notions

/-! ## A concrete stack: one linear layer with a single weight -/

/-- State of a stack of one layer computing `weight * input`, with its buffers. -/
structure LinearStack where
  weight : Int
  inputParameter : Int
  outputParameter : Int
  delta : Int
  gradient : Int
  deterministic : Bool
deriving DecidableEq, Repr

/-- First entry of a matrix (0 for a matrix without entries). -/
def Mat.first (m : Mat Int) : Int := (m.cols.headD []).headD 0

/-- First entry of a cube (0 for a cube without entries). -/
def Cube.first (q : Cube Int) : Int := ((q.slices.headD []).headD []).headD 0

/-- The helpers for `LinearStack`, with the squared error as loss; `first` reads
the input of the layer from an example. -/
def linearOps {Example : Type} (first : Example → Int) : Collaborators LinearStack Example Int where
  layerWeightSizes := fun _ => [1]
  NetworkWeights := fun parameter net => { net with weight := parameter.first }
  ResetParameter := fun deterministic net => { net with deterministic := deterministic }
  Forward := fun input net =>
    { net with inputParameter := first input, outputParameter := net.weight * first input }
  outputRows := 1
  OutputPrediction := fun net => [net.outputParameter]
  OutputPrediction_rows := fun _ => rfl
  OutputError := fun target _ net =>
    ((net.outputParameter - target.first) * (net.outputParameter - target.first),
      Mat.ofCol [net.outputParameter - target.first])
  NetworkGradients := fun gradient net => (gradient, net)
  Backward := fun error net => { net with delta := error.first }
  UpdateGradients := fun bound =>
    (Mat.ofCol [bound.2.delta * bound.2.inputParameter],
      { bound.2 with gradient := bound.2.delta * bound.2.inputParameter })

/-- An optimizer that evaluates the objective at sample 0, takes one gradient
step of size 1 on the parameter vector, in place, and returns the loss (0 when
sample 0 cannot be evaluated). The layers' weights are views of the vector, so
the step reaches them. -/
def stepOptimizer {Batch Example : Type} (c : Collaborators LinearStack Example Int)
    (evaluate : Container LinearStack Batch Int → Mat Int → Nat → Bool →
      Option (Container LinearStack Batch Int × Int)) :
    Optimizer LinearStack Batch Int where
  Optimize := fun s =>
    match evaluate s s.parameter 0 false with
    | none => (s, 0)
    | some (s, loss) =>
      let r := Container.Gradient c s s.parameter 0 (Mat.ofCol [0])
      let parameter : Mat Int := Mat.ofCol [r.1.parameter.first - r.2.first]
      ({ r.1 with parameter := parameter,
                  network := { r.1.network with weight := parameter.first } }, loss)

/-- The rule giving every entry the value `v`. -/
def constantRule (v : Int) : InitializationRule Int := ⟨fun _ _ => v⟩


/-- Member function `FFN::Gradient`. -/
abbrev FFN.Gradient {Net α : Type} (c : Collaborators Net (Mat α) α) (s : FFN Net α)
    (parameters : Mat α) (sampleIndex : Nat) (gradient : Mat α) : FFN Net α × Mat α :=
  Container.Gradient c s parameters sampleIndex gradient

/-- Member function `CNN::Gradient`. -/
abbrev CNN.Gradient {Net α : Type} (c : Collaborators Net (Cube α) α) (s : CNN Net α)
    (parameters : Mat α) (sampleIndex : Nat) (gradient : Mat α) : CNN Net α × Mat α :=
  Container.Gradient c s parameters sampleIndex gradient

/-- Member function `FFN::Serialize`. -/
abbrev FFN.Serialize {Net α : Type} (s : FFN Net α) (ar : Archive α) :
    Option (FFN Net α × Archive α) :=
  Container.Serialize s ar

/-- Member function `CNN::Serialize`. -/
abbrev CNN.Serialize {Net α : Type} (s : CNN Net α) (ar : Archive α) :
    Option (CNN Net α × Archive α) :=
  Container.Serialize s ar

/-! ## Concrete networks and batches -/

/-- A stack with weight 0 and cleared buffers. -/
def exampleStack : LinearStack := ⟨0, 0, 0, 0, 0, false⟩

/-- An `FFN` over `exampleStack`, built by the constructor without data with the
rule that gives every weight the value 2. -/
def exampleFFN : FFN LinearStack Int :=
  FFN.ctor (linearOps Mat.first) exampleStack (constantRule 2) 0 false

/-- A `CNN` over `exampleStack`, built by the constructor without data with the
rule that gives every weight the value 2. -/
def exampleCNN : CNN LinearStack Int :=
  CNN.ctor (linearOps Cube.first) exampleStack (constantRule 2) 0 false

/-- A batch of three examples of one row. -/
def exampleBatch : Mat Int := ⟨1, [[3], [4], [5]]⟩

/-- A batch of three examples (slices) of one row and two columns. -/
def exampleCube : Cube Int := ⟨1, 2, [[[3], [1]], [[4], [1]], [[5], [1]]]⟩

/-- Responses for three examples. -/
def exampleResponses : Mat Int := ⟨1, [[1], [1], [1]]⟩


/-- The optimizer used with the concrete `FFN`. -/
def exampleOptimizerFFN : Optimizer LinearStack (Mat Int) Int :=
  stepOptimizer (linearOps Mat.first) (FFN.Evaluate (linearOps Mat.first))

/-- The optimizer used with the concrete `CNN`. -/
def exampleOptimizerCNN : Optimizer LinearStack (Cube Int) Int :=
  stepOptimizer (linearOps Cube.first) (CNN.Evaluate (linearOps Cube.first))

/-- The network `exampleFFN` after `Train(exampleBatch, exampleResponses, optimizer)`. -/
def trainedFFN : FFN LinearStack Int :=
  (FFN.Train exampleOptimizerFFN exampleFFN exampleBatch exampleResponses).1

/-- The network `exampleCNN` after `Train(exampleCube, exampleResponses, optimizer)`. -/
def trainedCNN : CNN LinearStack Int :=
  (CNN.Train exampleOptimizerCNN exampleCNN exampleCube exampleResponses).1

/-- The network `trainedFFN` after `Evaluate(parameter, 1, true)`. -/
def evaluatedFFN : FFN LinearStack Int :=
  { trainedFFN with
    network := { trainedFFN.network with inputParameter := 4, outputParameter := -52,
                                         deterministic := true }
    error := ⟨1, [[-53]]⟩
    deterministic := true
    calls := trainedFFN.calls ++ [Call.ResetParameter, Call.Forward, Call.OutputError] }

/-- The network `trainedCNN` after `Evaluate(parameter, 1, true)`. -/
def evaluatedCNN : CNN LinearStack Int :=
  { trainedCNN with
    network := { trainedCNN.network with inputParameter := 4, outputParameter := -52,
                                         deterministic := true }
    error := ⟨1, [[-53]]⟩
    deterministic := true
    calls := trainedCNN.calls ++ [Call.ResetParameter, Call.Forward, Call.OutputError] }


/-- What a forward pass reads of a `LinearStack`: the weight and the flag. -/
def linearModel (net : LinearStack) : Int × Bool := (net.weight, net.deterministic)

/-- What the weight views of a `LinearStack` show: the one weight. -/
def linearViews : WeightViews LinearStack Int := ⟨fun net => Mat.ofCol [net.weight]⟩

/-- The helpers of `linearOps`, but with a `Forward` that also writes the weight 99. -/
def writingOps : Collaborators LinearStack (Mat Int) Int :=
  { linearOps Mat.first with
    Forward := fun input net => { (linearOps Mat.first).Forward input net with weight := 99 } }

/-- Responses for one example only. -/
def shortResponses : Mat Int := ⟨1, [[1]]⟩

/-- A parameter vector of three entries, for a stack of total weight size 1. -/
def longParameters : Mat Int := ⟨3, [[7, 8, 9]]⟩


/-! ## Class SoftmaxLayer -/

/-- The exponential of the element type `α` and the two constants of
`arma::trunc_exp`: `log_max` is `Math<eT>::log_max()`, the logarithm of the largest
finite value, and `max_value` is `std::numeric_limits<eT>::max()`. -/
structure Exponential (α : Type) where
  exp : α → α
  log_max : α
  max_value : α

namespace SoftmaxLayer

variable {α : Type}

/-- Function `arma::trunc_exp` on one entry: the exponential, cut off at the largest
finite value. -/
def trunc_exp [LinearOrder α] (e : Exponential α) (x : α) : α :=
  if e.log_max ≤ x then e.max_value else e.exp x

/-- Maximum of one column, as `arma::max(input)` computes it for every column;
`none` for a column without entries, which has no maximum. -/
def columnMax [LinearOrder α] : List α → Option α
  | [] => none
  | a :: rest => some (rest.foldl max a)

/-- Member function `Forward(input, output)`; the result is `output`:
`output = arma::trunc_exp(input - arma::repmat(arma::max(input), input.n_rows, 1));`
`output /= arma::accu(output);`. -/
def Forward [LinearOrderedField α] (e : Exponential α) (input : Mat α) : Option (Mat α) := do
  let maxima ← input.cols.mapM columnMax
  let shifted := List.zipWith (fun column m => column.map fun x => x - m) input.cols maxima
  let output := shifted.map fun column => column.map (trunc_exp e)
  let accu := (output.map List.sum).sum
  some ⟨input.n_rows, output.map fun column => column.map fun x => x / accu⟩

/-- Member function `Backward(input, gy, g)`; the first argument is unused and the
result is `g`. -/
def Backward (_input gy : Mat α) : Mat α := gy

end SoftmaxLayer

/-! ## The calls a member function makes -/

/-- The entries a member function has appended to the ghost log, given the
container before and after the call. -/
def callsMade {Net Batch α : Type} (before after : Container Net Batch α) : List Call :=
  after.calls.drop before.calls.length

/-- Every `Forward` entry of a sequence of calls comes directly after a
`ResetParameter` entry; `previous` is the call before the sequence, if any. -/
def forwardsFollowReset (previous : Option Call) : List Call → Bool
  | [] => true
  | e :: rest =>
    (e != Call.Forward || previous == some Call.ResetParameter) &&
      forwardsFollowReset (some e) rest

/-- A batch of `FFN` with rows but without examples. -/
def emptyBatch : Mat Int := ⟨1, []⟩

/-- A batch of `CNN` without examples. -/
def emptyCube : Cube Int := ⟨1, 2, []⟩


section Lemmas
variable {Net Example α : Type}

theorem Mat_colVec_of_lt (m : Mat α) (i : Nat) (h : i < m.cols.length) :
    m.colVec i = some ⟨m.n_rows, [m.cols[i]]⟩ := by
  simp [Mat.colVec, List.getElem?_eq_getElem h]

theorem Mat_colVec_isSome (m : Mat α) (i : Nat) (h : i < m.cols.length) :
    ∃ x, m.colVec i = some x := ⟨_, Mat_colVec_of_lt m i h⟩

theorem Mat_setCol_of_lt (m : Mat α) (i : Nat) (v : List α) (h : i < m.cols.length)
    (hv : v.length = m.n_rows) : m.setCol i v = some ⟨m.n_rows, m.cols.set i v⟩ := by
  simp [Mat.setCol, Mat.n_cols, h, hv]

theorem Mat_ofCol_col_zero (v : List α) : (Mat.ofCol v).col 0 = some v := by
  simp [Mat.ofCol, Mat.col]

theorem take_succ_set {β : Type} (l : List β) (i : Nat) (v : β) (h : i < l.length) :
    (l.set i v).take (i + 1) = l.take i ++ [v] := by
  induction l generalizing i with
  | nil => simp at h
  | cons a t ih =>
    cases i with
    | zero => simp
    | succ j =>
      simp only [List.length_cons, Nat.add_lt_add_iff_right] at h
      simp [ih j h]

theorem FFN_PredictLoop_eq [Inhabited α] (c : Collaborators Net (Mat α) α) (predictors : Mat α)
    (count i : Nat) (s : FFN Net α) (R : Mat α)
    (hX : predictors.cols.length = i + count) (hR : R.cols.length = i + count)
    (hrows : R.n_rows = c.outputRows) :
    FFN.PredictLoop c predictors count i (s, R) =
      some ({ s with network := forwardAll c s.network ((FFN.examples predictors).drop i),
                     calls := s.calls ++ loopCalls count },
            { R with cols := R.cols.take i ++
                predictions c s.network ((FFN.examples predictors).drop i) }) := by
  induction count generalizing i s R with
  | zero =>
    have h1 : (FFN.examples predictors).drop i = [] := by
      apply List.drop_eq_nil_of_le; simp [FFN.examples, hX]
    have h2 : R.cols.take i = R.cols := by
      apply List.take_of_length_le; simp [hR]
    simp [FFN.PredictLoop, h1, h2, forwardAll, predictions, loopCalls]
  | succ k ih =>
    have hi : i < predictors.cols.length := by omega
    have hiR : i < R.cols.length := by omega
    have hd : (FFN.examples predictors).drop i =
        ⟨predictors.n_rows, [predictors.cols[i]]⟩ :: (FFN.examples predictors).drop (i + 1) := by
      rw [List.drop_eq_getElem_cons (by simpa [FFN.examples] using hi)]
      simp [FFN.examples]
    have hset := Mat_setCol_of_lt R i
      (c.OutputPrediction (c.Forward ⟨predictors.n_rows, [predictors.cols[i]]⟩ s.network)) hiR
      (by rw [c.OutputPrediction_rows, hrows])
    simp only [FFN.PredictLoop, Mat_colVec_of_lt _ _ hi, Mat_colVec_of_lt _ _ hiR,
      callForward, callOutputPrediction, record, Mat_ofCol_col_zero, Option.bind_eq_bind,
      Option.some_bind, hset]
    refine (ih (i + 1) _ _ (by omega) ?_ ?_).trans ?_
    · simp only [List.length_set]; omega
    · exact hrows
    · simp [hd, forwardAll, predictions, loopCalls, take_succ_set _ _ _ hiR]

theorem Cube_slicesRange_of_lt (q : Cube α) (i : Nat) (h : i < q.slices.length) :
    q.slicesRange i i = some { q with slices := [q.slices[i]] } := by
  unfold Cube.slicesRange Cube.n_slices
  rw [if_pos ⟨Nat.le_refl i, h⟩, List.drop_eq_getElem_cons h, Nat.sub_self]
  rfl

theorem CNN_PredictLoop_eq [Inhabited α] (c : Collaborators Net (Cube α) α) (predictors : Cube α)
    (count i : Nat) (s : CNN Net α) (R : Mat α)
    (hX : predictors.slices.length = i + count) (hR : R.cols.length = i + count)
    (hrows : R.n_rows = c.outputRows) :
    CNN.PredictLoop c predictors count i (s, R) =
      some ({ s with network := forwardAll c s.network ((CNN.examples predictors).drop i),
                     calls := s.calls ++ loopCalls count },
            { R with cols := R.cols.take i ++
                predictions c s.network ((CNN.examples predictors).drop i) }) := by
  induction count generalizing i s R with
  | zero =>
    have h1 : (CNN.examples predictors).drop i = [] := by
      apply List.drop_eq_nil_of_le; simp [CNN.examples, hX]
    have h2 : R.cols.take i = R.cols := by
      apply List.take_of_length_le; simp [hR]
    simp [CNN.PredictLoop, h1, h2, forwardAll, predictions, loopCalls]
  | succ k ih =>
    have hi : i < predictors.slices.length := by omega
    have hiR : i < R.cols.length := by omega
    have hd : (CNN.examples predictors).drop i =
        { predictors with slices := [predictors.slices[i]] } ::
          (CNN.examples predictors).drop (i + 1) := by
      rw [List.drop_eq_getElem_cons (by simpa [CNN.examples] using hi)]
      simp [CNN.examples]
    have hset := Mat_setCol_of_lt R i
      (c.OutputPrediction (c.Forward { predictors with slices := [predictors.slices[i]] }
        s.network)) hiR (by rw [c.OutputPrediction_rows, hrows])
    simp only [CNN.PredictLoop, Cube_slicesRange_of_lt _ _ hi, Mat_colVec_of_lt _ _ hiR,
      callForward, callOutputPrediction, record, Mat_ofCol_col_zero, Option.bind_eq_bind,
      Option.some_bind, hset]
    refine (ih (i + 1) _ _ (by omega) ?_ ?_).trans ?_
    · simp only [List.length_set]; omega
    · exact hrows
    · simp [hd, forwardAll, predictions, loopCalls, take_succ_set _ _ _ hiR]

/-- The state and the matrix `Predict` leaves behind on a batch with the examples
`inputs`. -/
theorem FFN_Predict_eq [Inhabited α] (c : Collaborators Net (Mat α) α) (s : FFN Net α)
    (predictors : Mat α) (h : 1 ≤ predictors.n_cols) :
    FFN.Predict c s predictors =
      some ({ s with deterministic := true,
                     network := forwardAll c (c.ResetParameter true s.network)
                       (FFN.examples predictors),
                     calls := s.calls ++ Call.ResetParameter :: loopCalls predictors.n_cols },
            ⟨c.outputRows, predictions c (c.ResetParameter true s.network)
              (FFN.examples predictors)⟩) := by
  obtain ⟨n_rows, cols⟩ := predictors
  cases cols with
  | nil => simp [Mat.n_cols] at h
  | cons v t =>
    have hset := Mat_setCol_of_lt
      (Mat.alloc (Mat.ofCol (c.OutputPrediction
        (c.Forward ⟨n_rows, [v]⟩ (c.ResetParameter true s.network)))).n_elem (t.length + 1)) 0
      (c.OutputPrediction (c.Forward ⟨n_rows, [v]⟩ (c.ResetParameter true s.network)))
      (by simp [Mat.alloc]) (by simp [Mat.alloc, Mat.ofCol, Mat.n_elem, Mat.n_cols])
    simp only [FFN.Predict, Mat.colVec, Mat.n_cols, List.getElem?_cons_zero, Option.map_some',
      callResetParameter, callForward, callOutputPrediction, record, Mat_ofCol_col_zero,
      Option.bind_eq_bind, Option.some_bind, List.length_cons, Nat.add_sub_cancel, hset]
    refine (FFN_PredictLoop_eq c _ t.length 1 _ _ ?_ ?_ ?_).trans ?_
    · simp; omega
    · simp [Mat.alloc]; omega
    · simp [Mat.alloc, Mat.ofCol, Mat.n_elem, Mat.n_cols, c.OutputPrediction_rows]
    · simp [FFN.examples, forwardAll, predictions, loopCalls, Mat.alloc, Mat.ofCol, Mat.n_elem,
        Mat.n_cols, c.OutputPrediction_rows, List.replicate_succ]


theorem CNN_Predict_eq [Inhabited α] (c : Collaborators Net (Cube α) α) (s : CNN Net α)
    (predictors : Cube α) (h : 1 ≤ predictors.n_slices) :
    CNN.Predict c s predictors =
      some ({ s with deterministic := true,
                     network := forwardAll c (c.ResetParameter true s.network)
                       (CNN.examples predictors),
                     calls := s.calls ++ Call.ResetParameter :: loopCalls predictors.n_slices },
            ⟨c.outputRows, predictions c (c.ResetParameter true s.network)
              (CNN.examples predictors)⟩) := by
  obtain ⟨n_rows, n_cols, slices⟩ := predictors
  cases slices with
  | nil => simp [Cube.n_slices] at h
  | cons v t =>
    have hset := Mat_setCol_of_lt
      (Mat.alloc (Mat.ofCol (c.OutputPrediction
        (c.Forward ⟨n_rows, n_cols, [v]⟩ (c.ResetParameter true s.network)))).n_elem
        (t.length + 1)) 0
      (c.OutputPrediction (c.Forward ⟨n_rows, n_cols, [v]⟩ (c.ResetParameter true s.network)))
      (by simp [Mat.alloc]) (by simp [Mat.alloc, Mat.ofCol, Mat.n_elem, Mat.n_cols])
    have h0 := Cube_slicesRange_of_lt (⟨n_rows, n_cols, v :: t⟩ : Cube α) 0 (by simp)
    simp only [List.getElem_cons_zero] at h0
    simp only [CNN.Predict, h0, Cube.n_slices,
      callResetParameter, callForward, callOutputPrediction, record, Mat_ofCol_col_zero,
      Option.bind_eq_bind, Option.some_bind, List.length_cons, Nat.add_sub_cancel, hset]
    refine (CNN_PredictLoop_eq c _ t.length 1 _ _ ?_ ?_ ?_).trans ?_
    · simp; omega
    · simp [Mat.alloc]; omega
    · simp [Mat.alloc, Mat.ofCol, Mat.n_elem, Mat.n_cols, c.OutputPrediction_rows]
    · simp [CNN.examples, forwardAll, predictions, loopCalls, Mat.alloc, Mat.ofCol, Mat.n_elem,
        Mat.n_cols, c.OutputPrediction_rows, List.replicate_succ]

theorem FFN_Predict_empty [Inhabited α] (c : Collaborators Net (Mat α) α) (s : FFN Net α)
    (predictors : Mat α) (h : predictors.n_cols = 0) : FFN.Predict c s predictors = none := by
  have : predictors.cols = [] := List.length_eq_zero.mp h
  simp [FFN.Predict, Mat.colVec, this]

theorem predictions_length (c : Collaborators Net Example α) (net : Net) (inputs : List Example) :
    (predictions c net inputs).length = inputs.length := by
  induction inputs generalizing net with
  | nil => rfl
  | cons x xs ih => simp [predictions, ih]

theorem forwardAll_cons (c : Collaborators Net Example α) (net : Net) (x : Example)
    (xs : List Example) : forwardAll c net (x :: xs) = forwardAll c (c.Forward x net) xs := rfl

theorem predictions_getElem? (c : Collaborators Net Example α) (net : Net)
    (inputs : List Example) (i : Nat) :
    (predictions c net inputs)[i]? =
      (inputs[i]?).map fun x => c.OutputPrediction (c.Forward x (forwardAll c net (inputs.take i))) := by
  induction inputs generalizing net i with
  | nil => simp [predictions]
  | cons x xs ih =>
    cases i with
    | zero => simp [predictions, forwardAll]
    | succ j => simp [predictions, ih, forwardAll_cons]

theorem FFN_examples_getElem? (predictors : Mat α) (i : Nat) :
    (FFN.examples predictors)[i]? = predictors.colVec i := by
  simp [FFN.examples, Mat.colVec]

theorem CNN_examples_getElem? (predictors : Cube α) (i : Nat) (h : i < predictors.n_slices) :
    (CNN.examples predictors)[i]? = predictors.slicesRange i i := by
  rw [Cube_slicesRange_of_lt _ _ h]
  simp [CNN.examples, List.getElem?_eq_getElem h]


theorem Container_Gradient_eq {Batch : Type} (c : Collaborators Net Example α)
    (s : Container Net Batch α) (parameters : Mat α) (sampleIndex : Nat) (gradient : Mat α) :
    Container.Gradient c s parameters sampleIndex gradient =
      ({ s with
         network := (c.UpdateGradients ((c.NetworkGradients gradient s.network).1,
           c.Backward s.error (c.NetworkGradients gradient s.network).2)).2
         calls := s.calls ++ [Call.NetworkGradients, Call.Backward, Call.UpdateGradients] },
       (c.UpdateGradients ((c.NetworkGradients gradient s.network).1,
           c.Backward s.error (c.NetworkGradients gradient s.network).2)).1) := by
  simp [Container.Gradient, record]

theorem FFN_Evaluate_error (c : Collaborators Net (Mat α) α) (s s' : FFN Net α)
    (parameters : Mat α) (i : Nat) (flag : Bool) (loss : α)
    (h : FFN.Evaluate c s parameters i flag = some (s', loss)) :
    ∃ t, s.responses.colVec i = some t ∧ s'.error = (c.OutputError t s.error s'.network).2 := by
  simp only [FFN.Evaluate, callResetParameter, callForward, callOutputError, record,
    Option.bind_eq_bind, Option.bind_eq_some] at h
  obtain ⟨x, _, t, ht, h⟩ := h
  simp only [Option.some.injEq, Prod.mk.injEq] at h
  refine ⟨t, ht, ?_⟩
  rw [← h.1]

theorem CNN_Evaluate_error (c : Collaborators Net (Cube α) α) (s s' : CNN Net α)
    (parameters : Mat α) (i : Nat) (flag : Bool) (loss : α)
    (h : CNN.Evaluate c s parameters i flag = some (s', loss)) :
    ∃ t, s.responses.colVec i = some t ∧ s'.error = (c.OutputError t s.error s'.network).2 := by
  simp only [CNN.Evaluate, callResetParameter, callForward, callOutputError, record,
    Option.bind_eq_bind, Option.bind_eq_some] at h
  obtain ⟨x, _, t, ht, h⟩ := h
  simp only [Option.some.injEq, Prod.mk.injEq] at h
  refine ⟨t, ht, ?_⟩
  rw [← h.1]

theorem forwardAll_model {M : Type} (c : Collaborators Net Example α) (model : Net → M)
    (hForward : ∀ x n, model (c.Forward x n) = model n) (net : Net) (inputs : List Example) :
    model (forwardAll c net inputs) = model net := by
  induction inputs generalizing net with
  | nil => rfl
  | cons x xs ih => rw [forwardAll_cons, ih, hForward]

theorem predictions_congr {M : Type} (c : Collaborators Net Example α) (model : Net → M)
    (hForward : ∀ x n, model (c.Forward x n) = model n)
    (hOutput : ∀ x n n', model n = model n' →
      c.OutputPrediction (c.Forward x n) = c.OutputPrediction (c.Forward x n'))
    (net net' : Net) (h : model net = model net') (inputs : List Example) :
    predictions c net inputs = predictions c net' inputs := by
  induction inputs generalizing net net' with
  | nil => rfl
  | cons x xs ih =>
    simp only [predictions]
    rw [hOutput x net net' h,
      ih (c.Forward x net) (c.Forward x net') (by simp only [hForward]; exact h)]

theorem predictions_repeat {M : Type} (c : Collaborators Net Example α) (model : Net → M)
    (hForward : ∀ x n, model (c.Forward x n) = model n)
    (hOutput : ∀ x n n', model n = model n' →
      c.OutputPrediction (c.Forward x n) = c.OutputPrediction (c.Forward x n'))
    (hReset : ∀ n n', model n' = model (c.ResetParameter true n) →
      model (c.ResetParameter true n') = model n')
    (net : Net) (inputs : List Example) :
    predictions c (c.ResetParameter true (forwardAll c (c.ResetParameter true net) inputs))
        inputs =
      predictions c (c.ResetParameter true net) inputs := by
  apply predictions_congr c model hForward hOutput
  have h := forwardAll_model c model hForward (c.ResetParameter true net) inputs
  rw [hReset net _ h, h]

theorem Mat_colVec_eq_none (m : Mat α) (i : Nat) (h : m.cols.length ≤ i) :
    m.colVec i = none := by
  simp [Mat.colVec, List.getElem?_eq_none h]

theorem Cube_slicesRange_eq_none (q : Cube α) (i : Nat) (h : q.slices.length ≤ i) :
    q.slicesRange i i = none := by
  unfold Cube.slicesRange Cube.n_slices
  rw [if_neg]
  omega

theorem FFN_Evaluate_isSome (c : Collaborators Net (Mat α) α) (s : FFN Net α)
    (parameters : Mat α) (i : Nat) (flag : Bool) :
    (FFN.Evaluate c s parameters i flag).isSome = true ↔
      i < s.predictors.n_cols ∧ i < s.responses.n_cols := by
  by_cases h₁ : i < s.predictors.cols.length
  · by_cases h₂ : i < s.responses.cols.length
    · simp [FFN.Evaluate, callResetParameter, callForward, record, Mat.n_cols,
        Mat_colVec_of_lt _ i h₁, Mat_colVec_of_lt _ i h₂, h₁, h₂]
    · simp [FFN.Evaluate, callResetParameter, callForward, record, Mat.n_cols,
        Mat_colVec_of_lt _ i h₁, Mat_colVec_eq_none _ i (Nat.le_of_not_lt h₂), h₂]
  · simp [FFN.Evaluate, callResetParameter, callForward, record, Mat.n_cols,
      Mat_colVec_eq_none _ i (Nat.le_of_not_lt h₁), h₁]

theorem CNN_Evaluate_isSome (c : Collaborators Net (Cube α) α) (s : CNN Net α)
    (parameters : Mat α) (i : Nat) (flag : Bool) :
    (CNN.Evaluate c s parameters i flag).isSome = true ↔
      i < s.predictors.n_slices ∧ i < s.responses.n_cols := by
  by_cases h₁ : i < s.predictors.slices.length
  · by_cases h₂ : i < s.responses.cols.length
    · simp [CNN.Evaluate, callResetParameter, callForward, record, Mat.n_cols, Cube.n_slices,
        Cube_slicesRange_of_lt _ i h₁, Mat_colVec_of_lt _ i h₂, h₁, h₂]
    · simp [CNN.Evaluate, callResetParameter, callForward, record, Mat.n_cols, Cube.n_slices,
        Cube_slicesRange_of_lt _ i h₁, Mat_colVec_eq_none _ i (Nat.le_of_not_lt h₂), h₂]
  · simp [CNN.Evaluate, callResetParameter, callForward, record, Mat.n_cols, Cube.n_slices,
      Cube_slicesRange_eq_none _ i (Nat.le_of_not_lt h₁), h₁]

theorem linearOps_Forward_model {Example : Type} (first : Example → Int) (x : Example)
    (n : LinearStack) : linearModel ((linearOps first).Forward x n) = linearModel n := rfl

theorem linearOps_OutputPrediction_model {Example : Type} (first : Example → Int) (x : Example)
    (n n' : LinearStack) (h : linearModel n = linearModel n') :
    (linearOps first).OutputPrediction ((linearOps first).Forward x n) =
      (linearOps first).OutputPrediction ((linearOps first).Forward x n') := by
  have hw : n.weight = n'.weight := congrArg Prod.fst h
  simp [linearOps, hw]

theorem linearOps_ResetParameter_model {Example : Type} (first : Example → Int)
    (n n' : LinearStack)
    (h : linearModel n' = linearModel ((linearOps first).ResetParameter true n)) :
    linearModel ((linearOps first).ResetParameter true n') = linearModel n' := by
  have hd : n'.deterministic = true := congrArg Prod.snd h
  simp [linearOps, linearModel, hd]

theorem foldl_max_bounds {β : Type} [LinearOrder β] (rest : List β) (a : β) :
    a ≤ rest.foldl max a ∧ ∀ b ∈ rest, b ≤ rest.foldl max a := by
  induction rest generalizing a with
  | nil => simp
  | cons c t ih =>
    obtain ⟨h₁, h₂⟩ := ih (max a c)
    refine ⟨le_trans (le_max_left a c) h₁, ?_⟩
    intro b hb
    rcases List.mem_cons.mp hb with rfl | hb
    · exact le_trans (le_max_right a b) h₁
    · exact h₂ b hb

theorem columnMax_bounds {β : Type} [LinearOrder β] (x : List β) (h : 1 ≤ x.length) :
    ∃ m, SoftmaxLayer.columnMax x = some m ∧ ∀ a ∈ x, a ≤ m := by
  cases x with
  | nil => simp at h
  | cons a rest =>
    refine ⟨rest.foldl max a, rfl, ?_⟩
    intro b hb
    rcases List.mem_cons.mp hb with rfl | hb
    · exact (foldl_max_bounds rest b).1
    · exact (foldl_max_bounds rest a).2 b hb

theorem trunc_exp_shifted (logMax maxValue m : ℝ) (hL : 0 < logMax) (x : List ℝ)
    (hm : ∀ a ∈ x, a ≤ m) :
    (x.map fun a => a - m).map (SoftmaxLayer.trunc_exp ⟨Real.exp, logMax, maxValue⟩) =
      x.map fun a => Real.exp a * Real.exp (-m) := by
  rw [List.map_map]
  apply List.map_congr_left
  intro a ha
  have h : ¬ logMax ≤ a - m := by
    have := hm a ha
    intro hle
    linarith
  simp only [Function.comp, SoftmaxLayer.trunc_exp, if_neg h]
  rw [← Real.exp_add, sub_eq_add_neg]

theorem sum_exp_pos (x : List ℝ) (h : 1 ≤ x.length) : 0 < (x.map Real.exp).sum := by
  cases x with
  | nil => simp at h
  | cons a rest =>
    have h₀ : 0 ≤ (rest.map Real.exp).sum :=
      List.sum_nonneg (by
        intro y hy
        obtain ⟨b, _, rfl⟩ := List.mem_map.mp hy
        exact (Real.exp_pos b).le)
    simp only [List.map_cons, List.sum_cons]
    linarith [Real.exp_pos a]

theorem softmax_column (logMax maxValue m : ℝ) (hL : 0 < logMax) (x : List ℝ)
    (hm : ∀ a ∈ x, a ≤ m) :
    (((x.map fun a => a - m).map
        (SoftmaxLayer.trunc_exp ⟨Real.exp, logMax, maxValue⟩)).map fun y =>
          y / (((x.map fun a => a - m).map
            (SoftmaxLayer.trunc_exp ⟨Real.exp, logMax, maxValue⟩)).sum + 0)) =
      x.map fun a => Real.exp a / (x.map Real.exp).sum := by
  rw [trunc_exp_shifted logMax maxValue m hL x hm, List.sum_map_mul_right, List.map_map,
    add_zero]
  apply List.map_congr_left
  intro a _
  simp only [Function.comp]
  rw [mul_div_mul_right _ _ (Real.exp_pos (-m)).ne']

theorem softmax_entries (x : List ℝ) (h : 1 ≤ x.length) :
    (∀ y ∈ x.map (fun a => Real.exp a / (x.map Real.exp).sum), 0 < y ∧ y ≤ 1) ∧
      (x.map fun a => Real.exp a / (x.map Real.exp).sum).sum = 1 := by
  have hS := sum_exp_pos x h
  constructor
  · intro y hy
    obtain ⟨a, ha, rfl⟩ := List.mem_map.mp hy
    refine ⟨div_pos (Real.exp_pos a) hS, (div_le_one hS).mpr ?_⟩
    apply List.single_le_sum
    · intro z hz
      obtain ⟨b, _, rfl⟩ := List.mem_map.mp hz
      exact (Real.exp_pos b).le
    · exact List.mem_map.mpr ⟨a, ha, rfl⟩
  · have : (x.map fun a => Real.exp a / (x.map Real.exp).sum) =
        x.map fun a => Real.exp a * ((x.map Real.exp).sum)⁻¹ := by
      apply List.map_congr_left
      intro a _
      rw [div_eq_mul_inv]
    rw [this, List.sum_map_mul_right, mul_inv_cancel₀ hS.ne']

theorem SoftmaxLayer_Forward_column (logMax maxValue : ℝ) (input : Mat ℝ) (x : List ℝ)
    (hL : 0 < logMax) (hcol : input.cols = [x]) (hrow : 1 ≤ x.length) :
    SoftmaxLayer.Forward ⟨Real.exp, logMax, maxValue⟩ input =
      some ⟨input.n_rows, [x.map fun a => Real.exp a / (x.map Real.exp).sum]⟩ := by
  obtain ⟨m, hmax, hm⟩ := columnMax_bounds x hrow
  simp only [SoftmaxLayer.Forward, hcol, List.mapM_cons, List.mapM_nil, hmax,
    Option.bind_eq_bind, Option.some_bind, Option.pure_def, List.zipWith_cons_cons,
    List.zipWith_nil_right, List.map_cons, List.map_nil, List.sum_cons, List.sum_nil]
  rw [softmax_column logMax maxValue m hL x hm]

theorem CNN_Predict_empty [Inhabited α] (c : Collaborators Net (Cube α) α) (s : CNN Net α)
    (predictors : Cube α) (h : predictors.n_slices = 0) : CNN.Predict c s predictors = none := by
  have h₀ := Cube_slicesRange_eq_none predictors 0 (by simp [Cube.n_slices] at h; simp [h])
  simp [CNN.Predict, h₀]

theorem Mat_alloc_setCol_empty [Inhabited α] (rows : Nat) (v : List α) :
    (Mat.alloc rows 0 : Mat α).setCol 0 v = none := by
  simp [Mat.setCol, Mat.alloc, Mat.n_cols]

theorem callsMade_append {Batch : Type} (before after : Container Net Batch α)
    (made : List Call) (h : after.calls = before.calls ++ made) :
    callsMade before after = made := by
  simp [callsMade, h]

theorem FFN_Evaluate_calls (c : Collaborators Net (Mat α) α) (s s' : FFN Net α)
    (parameters : Mat α) (i : Nat) (flag : Bool) (loss : α)
    (h : FFN.Evaluate c s parameters i flag = some (s', loss)) :
    s'.calls = s.calls ++ [Call.ResetParameter, Call.Forward, Call.OutputError] := by
  simp only [FFN.Evaluate, callResetParameter, callForward, callOutputError, record,
    Option.bind_eq_bind, Option.bind_eq_some] at h
  obtain ⟨x, _, t, _, h⟩ := h
  simp only [Option.some.injEq, Prod.mk.injEq] at h
  rw [← h.1]
  simp

theorem CNN_Evaluate_calls (c : Collaborators Net (Cube α) α) (s s' : CNN Net α)
    (parameters : Mat α) (i : Nat) (flag : Bool) (loss : α)
    (h : CNN.Evaluate c s parameters i flag = some (s', loss)) :
    s'.calls = s.calls ++ [Call.ResetParameter, Call.Forward, Call.OutputError] := by
  simp only [CNN.Evaluate, callResetParameter, callForward, callOutputError, record,
    Option.bind_eq_bind, Option.bind_eq_some] at h
  obtain ⟨x, _, t, _, h⟩ := h
  simp only [Option.some.injEq, Prod.mk.injEq] at h
  rw [← h.1]
  simp

theorem loopCalls_count_Forward (n : Nat) : (loopCalls n).count Call.Forward = n := by
  induction n with
  | zero => rfl
  | succ k ih => simp [loopCalls, ih]

theorem loopCalls_count_ResetParameter (n : Nat) :
    (loopCalls n).count Call.ResetParameter = 0 := by
  induction n with
  | zero => rfl
  | succ k ih => simp [loopCalls, ih]

theorem forwardsFollowReset_loopCalls (n : Nat) :
    forwardsFollowReset (some Call.OutputPrediction) (loopCalls n) = decide (n = 0) := by
  cases n with
  | zero => rfl
  | succ k => simp [loopCalls, forwardsFollowReset]

theorem forwardsFollowReset_Predict (n : Nat) :
    forwardsFollowReset none (Call.ResetParameter :: loopCalls n) = decide (n ≤ 1) := by
  cases n with
  | zero => rfl
  | succ k =>
    simp only [loopCalls, forwardsFollowReset, forwardsFollowReset_loopCalls]
    cases k <;> simp

theorem second_Train_starts_from_trained_parameter :
    trainedFFN.parameter = ⟨1, [[-13]]⟩ ∧
      (FFN.Train exampleOptimizerFFN trainedFFN exampleBatch exampleResponses).1.parameter =
        ⟨1, [[107]]⟩ ∧
      (FFN.Train exampleOptimizerFFN exampleFFN exampleBatch exampleResponses).1.parameter =
        ⟨1, [[-13]]⟩ := by
  refine ⟨?_, ?_, ?_⟩ <;> decide

theorem Predict_with_weight_writing_Forward :
    (FFN.Predict writingOps exampleFFN exampleBatch).map
        (fun r => (r.1.parameter, linearViews.read r.1.network, r.2)) =
      some (⟨1, [[2]]⟩, ⟨1, [[99]]⟩, ⟨1, [[6], [396], [495]]⟩) ∧
    linearViews.read exampleFFN.network = ⟨1, [[2]]⟩ := by
  refine ⟨?_, ?_⟩ <;> decide

end Lemmas

/-! ## The properties -/

section Properties

variable {Net α : Type}

/-- C1: on a batch of n >= 1 examples (columns for `FFN::Predict`, slices for
`CNN::Predict`) `Predict` returns, sets the member `deterministic` to true and
leaves in `responses` a matrix of exactly n columns; column `i` is the output
prediction of the stack after the forward pass of example `i`, the pass being run
on the stack as `ResetParameter` (with the flag true) and the passes of the
examples before `i` have left it. -/
theorem Predict_one_column_per_example_in_order [Inhabited α]
    (cF : Collaborators Net (Mat α) α) (cC : Collaborators Net (Cube α) α)
    (sF : FFN Net α) (sC : CNN Net α) (X : Mat α) (Q : Cube α)
    (hX : 1 ≤ X.n_cols) (hQ : 1 ≤ Q.n_slices) :
    (∃ s' R, FFN.Predict cF sF X = some (s', R) ∧ s'.deterministic = true ∧
      R.n_cols = X.n_cols ∧
      ∀ i, i < X.n_cols → ∃ x, X.colVec i = some x ∧
        R.col i = some (cF.OutputPrediction
          (cF.Forward x (stackBefore cF sF.network (FFN.examples X) i)))) ∧
    (∃ s' R, CNN.Predict cC sC Q = some (s', R) ∧ s'.deterministic = true ∧
      R.n_cols = Q.n_slices ∧
      ∀ i, i < Q.n_slices → ∃ x, Q.slicesRange i i = some x ∧
        R.col i = some (cC.OutputPrediction
          (cC.Forward x (stackBefore cC sC.network (CNN.examples Q) i)))) := by
  constructor
  · refine ⟨_, _, FFN_Predict_eq cF sF X hX, rfl, ?_, ?_⟩
    · simp [Mat.n_cols, predictions_length, FFN.examples]
    · intro i hi
      refine ⟨_, Mat_colVec_of_lt X i hi, ?_⟩
      simp only [Mat.col, predictions_getElem?, FFN_examples_getElem?, Mat_colVec_of_lt X i hi,
        Option.map_some', stackBefore]
  · refine ⟨_, _, CNN_Predict_eq cC sC Q hQ, rfl, ?_, ?_⟩
    · simp [Mat.n_cols, predictions_length, CNN.examples, Cube.n_slices]
    · intro i hi
      refine ⟨_, Cube_slicesRange_of_lt Q i hi, ?_⟩
      simp only [Mat.col, predictions_getElem?, CNN_examples_getElem? Q i hi,
        Cube_slicesRange_of_lt Q i hi, Option.map_some', stackBefore]

/-- Witness of C1 on the batches `exampleBatch` and `exampleCube`. -/
theorem Predict_one_column_per_example_in_order_witness :
    (1 ≤ exampleBatch.n_cols ∧ 1 ≤ exampleCube.n_slices) ∧
    ((∃ s' R, FFN.Predict (linearOps Mat.first) exampleFFN exampleBatch = some (s', R) ∧
      s'.deterministic = true ∧ R.n_cols = exampleBatch.n_cols ∧
      ∀ i, i < exampleBatch.n_cols → ∃ x, exampleBatch.colVec i = some x ∧
        R.col i = some ((linearOps Mat.first).OutputPrediction
          ((linearOps Mat.first).Forward x
            (stackBefore (linearOps Mat.first) exampleFFN.network
              (FFN.examples exampleBatch) i)))) ∧
    (∃ s' R, CNN.Predict (linearOps Cube.first) exampleCNN exampleCube = some (s', R) ∧
      s'.deterministic = true ∧ R.n_cols = exampleCube.n_slices ∧
      ∀ i, i < exampleCube.n_slices → ∃ x, exampleCube.slicesRange i i = some x ∧
        R.col i = some ((linearOps Cube.first).OutputPrediction
          ((linearOps Cube.first).Forward x
            (stackBefore (linearOps Cube.first) exampleCNN.network
              (CNN.examples exampleCube) i))))) :=
  ⟨⟨by decide, by decide⟩,
    Predict_one_column_per_example_in_order (linearOps Mat.first) (linearOps Cube.first)
      exampleFFN exampleCNN exampleBatch exampleCube (by decide) (by decide)⟩


/-- C2: for a bound batch and a sample index `i` below the number of bound
examples (columns of the `FFN` predictors, slices of the `CNN` predictors, and
columns of the responses), `Evaluate(parameters, i, flag)` returns: it sets the
member `deterministic` to `flag`, calls `ResetParameter`, forwards exactly example
`i`, and returns the value of `OutputError` on column `i` of the bound responses and
the stack after the forward pass, the error signal being stored in the member
`error`. -/
theorem Evaluate_forwards_the_sample
    (cF : Collaborators Net (Mat α) α) (cC : Collaborators Net (Cube α) α)
    (sF : FFN Net α) (sC : CNN Net α) (parameters : Mat α) (i : Nat) (flag : Bool)
    (hF : i < sF.predictors.n_cols) (hFr : i < sF.responses.n_cols)
    (hC : i < sC.predictors.n_slices) (hCr : i < sC.responses.n_cols) :
    (∃ x t, (FFN.examples sF.predictors)[i]? = some x ∧ sF.responses.colVec i = some t ∧
      FFN.Evaluate cF sF parameters i flag =
        some ({ sF with
                deterministic := flag
                network := cF.Forward x (cF.ResetParameter flag sF.network)
                error := (cF.OutputError t sF.error
                  (cF.Forward x (cF.ResetParameter flag sF.network))).2
                calls := sF.calls ++ [Call.ResetParameter, Call.Forward, Call.OutputError] },
              (cF.OutputError t sF.error
                (cF.Forward x (cF.ResetParameter flag sF.network))).1)) ∧
    (∃ x t, (CNN.examples sC.predictors)[i]? = some x ∧ sC.responses.colVec i = some t ∧
      CNN.Evaluate cC sC parameters i flag =
        some ({ sC with
                deterministic := flag
                network := cC.Forward x (cC.ResetParameter flag sC.network)
                error := (cC.OutputError t sC.error
                  (cC.Forward x (cC.ResetParameter flag sC.network))).2
                calls := sC.calls ++ [Call.ResetParameter, Call.Forward, Call.OutputError] },
              (cC.OutputError t sC.error
                (cC.Forward x (cC.ResetParameter flag sC.network))).1)) := by
  constructor
  · refine ⟨⟨sF.predictors.n_rows, [sF.predictors.cols[i]]⟩, _, ?_,
      Mat_colVec_of_lt _ i hFr, ?_⟩
    · rw [FFN_examples_getElem?]; exact Mat_colVec_of_lt _ i hF
    · simp [FFN.Evaluate, callResetParameter, callForward, callOutputError, record,
        Mat_colVec_of_lt _ i hF, Mat_colVec_of_lt _ i hFr]
  · refine ⟨{ sC.predictors with slices := [sC.predictors.slices[i]] }, _, ?_,
      Mat_colVec_of_lt _ i hCr, ?_⟩
    · rw [CNN_examples_getElem? _ i hC]; exact Cube_slicesRange_of_lt _ i hC
    · simp [CNN.Evaluate, callResetParameter, callForward, callOutputError, record,
        Cube_slicesRange_of_lt _ i hC, Mat_colVec_of_lt _ i hFr, Mat_colVec_of_lt _ i hCr]


/-- C3: `Gradient(parameters, sampleIndex, gradient)` binds the vector `gradient`
to the layers (`NetworkGradients`), then runs `Backward` on the member `error`, then
`UpdateGradients`, in this order; its result (the gradient vector and the state of
the container) is the same for any two values of `parameters` and of `sampleIndex`;
and after an `Evaluate` that has returned, the member `error` it backpropagates is
the error signal `OutputError` has computed in that `Evaluate`. -/
theorem Gradient_backpropagates_cached_error
    (cF : Collaborators Net (Mat α) α) (cC : Collaborators Net (Cube α) α)
    (sF : FFN Net α) (sC : CNN Net α) (parameters parameters' : Mat α)
    (sampleIndex sampleIndex' : Nat) (gradient : Mat α) :
    (FFN.Gradient cF sF parameters sampleIndex gradient =
        ({ sF with
           network := (cF.UpdateGradients ((cF.NetworkGradients gradient sF.network).1,
             cF.Backward sF.error (cF.NetworkGradients gradient sF.network).2)).2
           calls := sF.calls ++ [Call.NetworkGradients, Call.Backward, Call.UpdateGradients] },
         (cF.UpdateGradients ((cF.NetworkGradients gradient sF.network).1,
             cF.Backward sF.error (cF.NetworkGradients gradient sF.network).2)).1) ∧
      FFN.Gradient cF sF parameters sampleIndex gradient =
        FFN.Gradient cF sF parameters' sampleIndex' gradient ∧
      ∀ s0 q j flag loss, FFN.Evaluate cF s0 q j flag = some (sF, loss) →
        ∃ t, s0.responses.colVec j = some t ∧
          sF.error = (cF.OutputError t s0.error sF.network).2) ∧
    (CNN.Gradient cC sC parameters sampleIndex gradient =
        ({ sC with
           network := (cC.UpdateGradients ((cC.NetworkGradients gradient sC.network).1,
             cC.Backward sC.error (cC.NetworkGradients gradient sC.network).2)).2
           calls := sC.calls ++ [Call.NetworkGradients, Call.Backward, Call.UpdateGradients] },
         (cC.UpdateGradients ((cC.NetworkGradients gradient sC.network).1,
             cC.Backward sC.error (cC.NetworkGradients gradient sC.network).2)).1) ∧
      CNN.Gradient cC sC parameters sampleIndex gradient =
        CNN.Gradient cC sC parameters' sampleIndex' gradient ∧
      ∀ s0 q j flag loss, CNN.Evaluate cC s0 q j flag = some (sC, loss) →
        ∃ t, s0.responses.colVec j = some t ∧
          sC.error = (cC.OutputError t s0.error sC.network).2) :=
  ⟨⟨Container_Gradient_eq cF sF parameters sampleIndex gradient, rfl,
      fun s0 q j flag loss h => FFN_Evaluate_error cF s0 sF q j flag loss h⟩,
    ⟨Container_Gradient_eq cC sC parameters sampleIndex gradient, rfl,
      fun s0 q j flag loss h => CNN_Evaluate_error cC s0 sC q j flag loss h⟩⟩

/-- C4: on a non-empty batch `Predict` returns and leaves the parameter vector as
it was (`FFN::Predict` and `CNN::Predict`). The member `parameter` keeps its
dimensions and entries, and, the layers' weights being views of the vector, what
these views show of the stack after the call is what they showed before it; the
latter holds for helpers `Forward` and `ResetParameter` that write no weight, the
only way in which a `Predict` could change an entry of the vector. -/
theorem Predict_leaves_parameter_unchanged [Inhabited α]
    (cF : Collaborators Net (Mat α) α) (cC : Collaborators Net (Cube α) α)
    (viewsF viewsC : WeightViews Net α)
    (hForwardF : ∀ x n, viewsF.read (cF.Forward x n) = viewsF.read n)
    (hResetF : ∀ n, viewsF.read (cF.ResetParameter true n) = viewsF.read n)
    (hForwardC : ∀ x n, viewsC.read (cC.Forward x n) = viewsC.read n)
    (hResetC : ∀ n, viewsC.read (cC.ResetParameter true n) = viewsC.read n)
    (sF : FFN Net α) (sC : CNN Net α) (X : Mat α) (Q : Cube α)
    (hX : 1 ≤ X.n_cols) (hQ : 1 ≤ Q.n_slices) :
    (∃ s' R, FFN.Predict cF sF X = some (s', R) ∧ s'.parameter = sF.parameter ∧
      viewsF.read s'.network = viewsF.read sF.network) ∧
    (∃ s' R, CNN.Predict cC sC Q = some (s', R) ∧ s'.parameter = sC.parameter ∧
      viewsC.read s'.network = viewsC.read sC.network) := by
  refine ⟨⟨_, _, FFN_Predict_eq cF sF X hX, rfl, ?_⟩, ⟨_, _, CNN_Predict_eq cC sC Q hQ, rfl, ?_⟩⟩
  · exact (forwardAll_model cF viewsF.read hForwardF _ _).trans (hResetF _)
  · exact (forwardAll_model cC viewsC.read hForwardC _ _).trans (hResetC _)

/-- Witness of C4: the stack of one linear layer, whose `Forward` and
`ResetParameter` leave the weight, on the batches `exampleBatch` and `exampleCube`. -/
theorem Predict_leaves_parameter_unchanged_witness :
    ((∀ x n, linearViews.read ((linearOps Mat.first).Forward x n) = linearViews.read n) ∧
      (∀ n, linearViews.read ((linearOps Mat.first).ResetParameter true n) =
        linearViews.read n) ∧
      (∀ x n, linearViews.read ((linearOps Cube.first).Forward x n) = linearViews.read n) ∧
      (∀ n, linearViews.read ((linearOps Cube.first).ResetParameter true n) =
        linearViews.read n) ∧
      1 ≤ exampleBatch.n_cols ∧ 1 ≤ exampleCube.n_slices) ∧
    ((∃ s' R, FFN.Predict (linearOps Mat.first) exampleFFN exampleBatch = some (s', R) ∧
      s'.parameter = exampleFFN.parameter ∧
      linearViews.read s'.network = linearViews.read exampleFFN.network) ∧
    (∃ s' R, CNN.Predict (linearOps Cube.first) exampleCNN exampleCube = some (s', R) ∧
      s'.parameter = exampleCNN.parameter ∧
      linearViews.read s'.network = linearViews.read exampleCNN.network)) :=
  ⟨⟨fun _ _ => rfl, fun _ => rfl, fun _ _ => rfl, fun _ => rfl, by decide, by decide⟩,
    Predict_leaves_parameter_unchanged (linearOps Mat.first) (linearOps Cube.first)
      linearViews linearViews (fun _ _ => rfl) (fun _ => rfl) (fun _ _ => rfl) (fun _ => rfl)
      exampleFFN exampleCNN exampleBatch exampleCube (by decide) (by decide)⟩

/-- Witness of C2 on the trained concrete networks, at sample 1. -/
theorem Evaluate_forwards_the_sample_witness :
    (1 < trainedFFN.predictors.n_cols ∧ 1 < trainedFFN.responses.n_cols ∧
      1 < trainedCNN.predictors.n_slices ∧ 1 < trainedCNN.responses.n_cols) ∧
    ((∃ x t, (FFN.examples trainedFFN.predictors)[1]? = some x ∧
      trainedFFN.responses.colVec 1 = some t ∧
      FFN.Evaluate (linearOps Mat.first) trainedFFN longParameters 1 true =
        some ({ trainedFFN with
                deterministic := true
                network := (linearOps Mat.first).Forward x
                  ((linearOps Mat.first).ResetParameter true trainedFFN.network)
                error := ((linearOps Mat.first).OutputError t trainedFFN.error
                  ((linearOps Mat.first).Forward x
                    ((linearOps Mat.first).ResetParameter true trainedFFN.network))).2
                calls := trainedFFN.calls ++
                  [Call.ResetParameter, Call.Forward, Call.OutputError] },
              ((linearOps Mat.first).OutputError t trainedFFN.error
                ((linearOps Mat.first).Forward x
                  ((linearOps Mat.first).ResetParameter true trainedFFN.network))).1)) ∧
    (∃ x t, (CNN.examples trainedCNN.predictors)[1]? = some x ∧
      trainedCNN.responses.colVec 1 = some t ∧
      CNN.Evaluate (linearOps Cube.first) trainedCNN longParameters 1 true =
        some ({ trainedCNN with
                deterministic := true
                network := (linearOps Cube.first).Forward x
                  ((linearOps Cube.first).ResetParameter true trainedCNN.network)
                error := ((linearOps Cube.first).OutputError t trainedCNN.error
                  ((linearOps Cube.first).Forward x
                    ((linearOps Cube.first).ResetParameter true trainedCNN.network))).2
                calls := trainedCNN.calls ++
                  [Call.ResetParameter, Call.Forward, Call.OutputError] },
              ((linearOps Cube.first).OutputError t trainedCNN.error
                ((linearOps Cube.first).Forward x
                  ((linearOps Cube.first).ResetParameter true trainedCNN.network))).1))) :=
  ⟨⟨by decide, by decide, by decide, by decide⟩,
    Evaluate_forwards_the_sample (linearOps Mat.first) (linearOps Cube.first)
      trainedFFN trainedCNN longParameters 1 true (by decide) (by decide) (by decide) (by decide)⟩

/-- Witness of C3: an `Evaluate` on the trained concrete networks that returns
`evaluatedFFN` (`evaluatedCNN`), whose member `error` is the signal of that call. -/
theorem Gradient_backpropagates_cached_error_witness :
    (FFN.Evaluate (linearOps Mat.first) trainedFFN trainedFFN.parameter 1 true =
        some (evaluatedFFN, 2809) ∧
      CNN.Evaluate (linearOps Cube.first) trainedCNN trainedCNN.parameter 1 true =
        some (evaluatedCNN, 2809)) ∧
    ((∃ t, trainedFFN.responses.colVec 1 = some t ∧
        evaluatedFFN.error =
          ((linearOps Mat.first).OutputError t trainedFFN.error evaluatedFFN.network).2) ∧
      (∃ t, trainedCNN.responses.colVec 1 = some t ∧
        evaluatedCNN.error =
          ((linearOps Cube.first).OutputError t trainedCNN.error evaluatedCNN.network).2)) :=
  ⟨⟨by decide, by decide⟩,
    (Gradient_backpropagates_cached_error (linearOps Mat.first) (linearOps Cube.first)
      evaluatedFFN evaluatedCNN trainedFFN.parameter longParameters 1 0 (Mat.ofCol [0])).1.2.2
        trainedFFN trainedFFN.parameter 1 true 2809 (by decide),
    (Gradient_backpropagates_cached_error (linearOps Mat.first) (linearOps Cube.first)
      evaluatedFFN evaluatedCNN trainedFFN.parameter longParameters 1 0 (Mat.ofCol [0])).2.2.2
        trainedCNN trainedCNN.parameter 1 true 2809 (by decide)⟩

/-- C5: `Predict` is repeatable. When what a forward pass reads of the stack
(`model`: the weights and the layers' flags) is left as it is by `Forward`,
determines the prediction after the pass, and is not changed by `ResetParameter`
with the flag true on a stack that reads like one so reset, then on a non-empty
batch `Predict` called twice in a row, the second call on the state the first
has left, returns both times and writes the same matrix `responses`. -/
theorem Predict_twice_same_responses [Inhabited α] {M : Type}
    (cF : Collaborators Net (Mat α) α) (cC : Collaborators Net (Cube α) α)
    (modelF modelC : Net → M)
    (hForwardF : ∀ x n, modelF (cF.Forward x n) = modelF n)
    (hOutputF : ∀ x n n', modelF n = modelF n' →
      cF.OutputPrediction (cF.Forward x n) = cF.OutputPrediction (cF.Forward x n'))
    (hResetF : ∀ n n', modelF n' = modelF (cF.ResetParameter true n) →
      modelF (cF.ResetParameter true n') = modelF n')
    (hForwardC : ∀ x n, modelC (cC.Forward x n) = modelC n)
    (hOutputC : ∀ x n n', modelC n = modelC n' →
      cC.OutputPrediction (cC.Forward x n) = cC.OutputPrediction (cC.Forward x n'))
    (hResetC : ∀ n n', modelC n' = modelC (cC.ResetParameter true n) →
      modelC (cC.ResetParameter true n') = modelC n')
    (sF : FFN Net α) (sC : CNN Net α) (X : Mat α) (Q : Cube α)
    (hX : 1 ≤ X.n_cols) (hQ : 1 ≤ Q.n_slices) :
    (∃ s₁ s₂ R, FFN.Predict cF sF X = some (s₁, R) ∧ FFN.Predict cF s₁ X = some (s₂, R)) ∧
    (∃ s₁ s₂ R, CNN.Predict cC sC Q = some (s₁, R) ∧ CNN.Predict cC s₁ Q = some (s₂, R)) := by
  constructor
  · obtain ⟨s₁, R, h₁, hn, hR⟩ : ∃ s₁ R, FFN.Predict cF sF X = some (s₁, R) ∧
        s₁.network = forwardAll cF (cF.ResetParameter true sF.network) (FFN.examples X) ∧
        R = ⟨cF.outputRows, predictions cF (cF.ResetParameter true sF.network)
          (FFN.examples X)⟩ := ⟨_, _, FFN_Predict_eq cF sF X hX, rfl, rfl⟩
    have h₂ := FFN_Predict_eq cF s₁ X hX
    rw [hn, predictions_repeat cF modelF hForwardF hOutputF hResetF, ← hR] at h₂
    exact ⟨s₁, _, R, h₁, h₂⟩
  · obtain ⟨s₁, R, h₁, hn, hR⟩ : ∃ s₁ R, CNN.Predict cC sC Q = some (s₁, R) ∧
        s₁.network = forwardAll cC (cC.ResetParameter true sC.network) (CNN.examples Q) ∧
        R = ⟨cC.outputRows, predictions cC (cC.ResetParameter true sC.network)
          (CNN.examples Q)⟩ := ⟨_, _, CNN_Predict_eq cC sC Q hQ, rfl, rfl⟩
    have h₂ := CNN_Predict_eq cC s₁ Q hQ
    rw [hn, predictions_repeat cC modelC hForwardC hOutputC hResetC, ← hR] at h₂
    exact ⟨s₁, _, R, h₁, h₂⟩


/-- Witness of C5: the stack of one linear layer, whose forward pass reads the
weight and the flag, on the batches `exampleBatch` and `exampleCube`. -/
theorem Predict_twice_same_responses_witness :
    ((∀ x n, linearModel ((linearOps Mat.first).Forward x n) = linearModel n) ∧
      (∀ x n n', linearModel n = linearModel n' →
        (linearOps Mat.first).OutputPrediction ((linearOps Mat.first).Forward x n) =
          (linearOps Mat.first).OutputPrediction ((linearOps Mat.first).Forward x n')) ∧
      (∀ n n', linearModel n' = linearModel ((linearOps Mat.first).ResetParameter true n) →
        linearModel ((linearOps Mat.first).ResetParameter true n') = linearModel n') ∧
      (∀ x n, linearModel ((linearOps Cube.first).Forward x n) = linearModel n) ∧
      (∀ x n n', linearModel n = linearModel n' →
        (linearOps Cube.first).OutputPrediction ((linearOps Cube.first).Forward x n) =
          (linearOps Cube.first).OutputPrediction ((linearOps Cube.first).Forward x n')) ∧
      (∀ n n', linearModel n' = linearModel ((linearOps Cube.first).ResetParameter true n) →
        linearModel ((linearOps Cube.first).ResetParameter true n') = linearModel n') ∧
      1 ≤ exampleBatch.n_cols ∧ 1 ≤ exampleCube.n_slices) ∧
    ((∃ s₁ s₂ R, FFN.Predict (linearOps Mat.first) trainedFFN exampleBatch = some (s₁, R) ∧
        FFN.Predict (linearOps Mat.first) s₁ exampleBatch = some (s₂, R)) ∧
      (∃ s₁ s₂ R, CNN.Predict (linearOps Cube.first) trainedCNN exampleCube = some (s₁, R) ∧
        CNN.Predict (linearOps Cube.first) s₁ exampleCube = some (s₂, R))) :=
  ⟨⟨linearOps_Forward_model Mat.first, linearOps_OutputPrediction_model Mat.first,
      linearOps_ResetParameter_model Mat.first, linearOps_Forward_model Cube.first,
      linearOps_OutputPrediction_model Cube.first, linearOps_ResetParameter_model Cube.first,
      by decide, by decide⟩,
    Predict_twice_same_responses (linearOps Mat.first) (linearOps Cube.first)
      linearModel linearModel
      (linearOps_Forward_model Mat.first) (linearOps_OutputPrediction_model Mat.first)
      (linearOps_ResetParameter_model Mat.first) (linearOps_Forward_model Cube.first)
      (linearOps_OutputPrediction_model Cube.first) (linearOps_ResetParameter_model Cube.first)
      trainedFFN trainedCNN exampleBatch exampleCube (by decide) (by decide)⟩


/-- C8, the code at the failing input: for the cube `exampleCube` of 1 row, 2
columns and 3 slices (3 examples), `CNN::Train` and the two constructors of `CNN`
taking data leave `numFunctions = 2`, the column count `predictors.n_cols`, where
the number of examples is `n_slices = 3`; `FFN::Train` on the 3 columns of
`exampleBatch` leaves `numFunctions = 3`. -/
theorem CNN_numFunctions_is_n_cols_of_the_cube :
    exampleCube.n_slices = 3 ∧ exampleCube.n_cols = 2 ∧
    (CNN.Train exampleOptimizerCNN exampleCNN exampleCube exampleResponses).1.numFunctions = 2 ∧
    (CNN.ctorOptimizer (linearOps Cube.first) Forwarding.copy exampleStack exampleCube
      exampleResponses exampleOptimizerCNN (constantRule 2) false).1.numFunctions = 2 ∧
    (CNN.ctorData (linearOps Cube.first) Forwarding.copy exampleStack exampleCube
      exampleResponses exampleOptimizerCNN (constantRule 2) 0 false).1.numFunctions = 2 ∧
    exampleBatch.n_cols = 3 ∧
    (FFN.Train exampleOptimizerFFN exampleFFN exampleBatch exampleResponses).1.numFunctions = 3 := by
  refine ⟨?_, ?_, ?_, ?_, ?_, ?_, ?_⟩ <;> decide

/-- C9 fails as stated: `Train` on three predictor examples and a response matrix
of one column binds the batch (the members `predictors` and `responses` are the
arguments, not the earlier empty batch) and calls the optimizer, in `FFN` and in
`CNN`. -/
theorem Train_binds_and_optimizes_mismatched_batch :
    (exampleBatch.n_cols ≠ shortResponses.n_cols ∧
      exampleFFN.predictors ≠ exampleBatch ∧
      (FFN.Train exampleOptimizerFFN exampleFFN exampleBatch shortResponses).1.predictors =
        exampleBatch ∧
      (FFN.Train exampleOptimizerFFN exampleFFN exampleBatch shortResponses).1.responses =
        shortResponses ∧
      Call.Optimize ∈
        (FFN.Train exampleOptimizerFFN exampleFFN exampleBatch shortResponses).1.calls) ∧
    (exampleCube.n_slices ≠ shortResponses.n_cols ∧
      exampleCNN.predictors ≠ exampleCube ∧
      (CNN.Train exampleOptimizerCNN exampleCNN exampleCube shortResponses).1.predictors =
        exampleCube ∧
      (CNN.Train exampleOptimizerCNN exampleCNN exampleCube shortResponses).1.responses =
        shortResponses ∧
      Call.Optimize ∈
        (CNN.Train exampleOptimizerCNN exampleCNN exampleCube shortResponses).1.calls) := by
  refine ⟨⟨?_, ?_, ?_, ?_, ?_⟩, ⟨?_, ?_, ?_, ?_, ?_⟩⟩ <;> decide

/-- C9 as amended: `Train(predictors, responses[, optimizer])` makes no check of
the example counts. Whatever the two counts are, it stores the arguments in the
members `predictors` and `responses`, leaves the stack and the parameter vector as
they are, and calls `optimizer.Optimize` once on the state so bound; its result is
the optimizer's. -/
theorem Train_binds_then_optimizes_without_check
    (optimizerF : Optimizer Net (Mat α) α) (optimizerC : Optimizer Net (Cube α) α)
    (sF : FFN Net α) (sC : CNN Net α) (X responses : Mat α) (Q : Cube α) :
    (∃ s : FFN Net α, FFN.Train optimizerF sF X responses = optimizerF.Optimize s ∧
      s.predictors = X ∧ s.responses = responses ∧ s.network = sF.network ∧
      s.parameter = sF.parameter ∧ s.calls = sF.calls ++ [Call.Optimize]) ∧
    (∃ s : CNN Net α, CNN.Train optimizerC sC Q responses = optimizerC.Optimize s ∧
      s.predictors = Q ∧ s.responses = responses ∧ s.network = sC.network ∧
      s.parameter = sC.parameter ∧ s.calls = sC.calls ++ [Call.Optimize]) :=
  ⟨⟨_, rfl, rfl, rfl, rfl, rfl, rfl⟩, ⟨_, rfl, rfl, rfl, rfl, rfl, rfl⟩⟩

/-- C10 fails as stated: for a stack of total weight size 1, `Evaluate` and
`Gradient` handed a parameter vector of 3 entries do not fail; they return the loss
2809 and the gradient -212, as they do when handed the container's own vector of 1
entry (`FFN` and `CNN`). -/
theorem Evaluate_Gradient_accept_wrong_length_parameters :
    (NetworkSize (linearOps Mat.first) trainedFFN.network = 1 ∧ longParameters.n_elem = 3 ∧
      FFN.Evaluate (linearOps Mat.first) trainedFFN longParameters 1 true =
        some (evaluatedFFN, 2809) ∧
      FFN.Evaluate (linearOps Mat.first) trainedFFN trainedFFN.parameter 1 true =
        some (evaluatedFFN, 2809) ∧
      (FFN.Gradient (linearOps Mat.first) evaluatedFFN longParameters 1 (Mat.ofCol [0])).2 =
        Mat.ofCol [-212] ∧
      (FFN.Gradient (linearOps Mat.first) evaluatedFFN trainedFFN.parameter 1
        (Mat.ofCol [0])).2 = Mat.ofCol [-212]) ∧
    (NetworkSize (linearOps Cube.first) trainedCNN.network = 1 ∧
      CNN.Evaluate (linearOps Cube.first) trainedCNN longParameters 1 true =
        some (evaluatedCNN, 2809) ∧
      CNN.Evaluate (linearOps Cube.first) trainedCNN trainedCNN.parameter 1 true =
        some (evaluatedCNN, 2809) ∧
      (CNN.Gradient (linearOps Cube.first) evaluatedCNN longParameters 1 (Mat.ofCol [0])).2 =
        Mat.ofCol [-212] ∧
      (CNN.Gradient (linearOps Cube.first) evaluatedCNN trainedCNN.parameter 1
        (Mat.ofCol [0])).2 = Mat.ofCol [-212]) := by
  refine ⟨⟨?_, ?_, ?_, ?_, ?_, ?_⟩, ⟨?_, ?_, ?_, ?_, ?_⟩⟩ <;> decide

/-- C10 as amended: when `Evaluate` or `Gradient` is handed a parameter vector whose
length differs from the total weight size of the stack, the call does not fail on
that account. Both ignore the vector they are handed: for any two vectors, of any
lengths, they return the same result, computed from the state of the container. -/
theorem Evaluate_Gradient_ignore_parameters
    (cF : Collaborators Net (Mat α) α) (cC : Collaborators Net (Cube α) α)
    (sF : FFN Net α) (sC : CNN Net α) (parameters parameters' : Mat α) (i : Nat) (flag : Bool)
    (gradient : Mat α) :
    (FFN.Evaluate cF sF parameters i flag = FFN.Evaluate cF sF parameters' i flag ∧
      FFN.Gradient cF sF parameters i gradient = FFN.Gradient cF sF parameters' i gradient) ∧
    (CNN.Evaluate cC sC parameters i flag = CNN.Evaluate cC sC parameters' i flag ∧
      CNN.Gradient cC sC parameters i gradient = CNN.Gradient cC sC parameters' i gradient) :=
  ⟨⟨rfl, rfl⟩, ⟨rfl, rfl⟩⟩

/-- C11: `Train` makes no implicit reset. In each overload the container handed to
`optimizer.Optimize` has the parameter vector and the layer stack that the container
had when `Train` was entered, and the only call made before is this `Optimize` (no
`Initialize`, no `NetworkWeights`); the two overloads taking data store the new
`predictors` and `responses` and set `numFunctions` from the new predictors
(`predictors.n_cols`), `Train(optimizer)` keeps the bound batch. Hence a second
`Train` hands its optimizer the parameter vector the first `Train` has left. -/
theorem Train_optimizes_from_the_current_parameters
    (optimizerF optimizerF' : Optimizer Net (Mat α) α)
    (optimizerC optimizerC' : Optimizer Net (Cube α) α)
    (sF : FFN Net α) (sC : CNN Net α) (X X' responses responses' : Mat α) (Q Q' : Cube α) :
    ((∃ s : FFN Net α, FFN.Train optimizerF sF X responses = optimizerF.Optimize s ∧
        s = { sF with numFunctions := X.n_cols, predictors := X, responses := responses,
                      calls := sF.calls ++ [Call.Optimize] } ∧
        s.parameter = sF.parameter ∧ s.network = sF.network ∧
        callsMade sF s = [Call.Optimize]) ∧
      (∃ s : FFN Net α, FFN.TrainBound optimizerF sF = optimizerF.Optimize s ∧
        s = { sF with calls := sF.calls ++ [Call.Optimize] } ∧
        s.parameter = sF.parameter ∧ s.network = sF.network ∧
        callsMade sF s = [Call.Optimize]) ∧
      (∃ s : FFN Net α,
        FFN.Train optimizerF' (FFN.Train optimizerF sF X responses).1 X' responses' =
          optimizerF'.Optimize s ∧
        s.parameter = (FFN.Train optimizerF sF X responses).1.parameter ∧
        s.network = (FFN.Train optimizerF sF X responses).1.network ∧
        s.predictors = X' ∧ s.responses = responses' ∧ s.numFunctions = X'.n_cols)) ∧
    ((∃ s : CNN Net α, CNN.Train optimizerC sC Q responses = optimizerC.Optimize s ∧
        s = { sC with numFunctions := Q.n_cols, predictors := Q, responses := responses,
                      calls := sC.calls ++ [Call.Optimize] } ∧
        s.parameter = sC.parameter ∧ s.network = sC.network ∧
        callsMade sC s = [Call.Optimize]) ∧
      (∃ s : CNN Net α, CNN.TrainBound optimizerC sC = optimizerC.Optimize s ∧
        s = { sC with calls := sC.calls ++ [Call.Optimize] } ∧
        s.parameter = sC.parameter ∧ s.network = sC.network ∧
        callsMade sC s = [Call.Optimize]) ∧
      (∃ s : CNN Net α,
        CNN.Train optimizerC' (CNN.Train optimizerC sC Q responses).1 Q' responses' =
          optimizerC'.Optimize s ∧
        s.parameter = (CNN.Train optimizerC sC Q responses).1.parameter ∧
        s.network = (CNN.Train optimizerC sC Q responses).1.network ∧
        s.predictors = Q' ∧ s.responses = responses' ∧ s.numFunctions = Q'.n_cols)) := by
  refine ⟨⟨⟨_, rfl, rfl, rfl, rfl, ?_⟩, ⟨_, rfl, rfl, rfl, rfl, ?_⟩,
      ⟨_, rfl, rfl, rfl, rfl, rfl, rfl⟩⟩,
    ⟨⟨_, rfl, rfl, rfl, rfl, ?_⟩, ⟨_, rfl, rfl, rfl, rfl, ?_⟩,
      ⟨_, rfl, rfl, rfl, rfl, rfl, rfl⟩⟩⟩ <;>
  exact callsMade_append _ _ _ rfl

/-- C12: over the real numbers, for an input of one column `x` with at least one
row, `SoftmaxLayer::Forward` returns the softmax of `x`: entry `i` of the output is
`exp(x_i) / sum_j exp(x_j)`, although the code subtracts the column maximum first
(after which `trunc_exp` never cuts off, the threshold `log_max` being positive);
every entry of the output is in (0, 1] and the entries sum to 1. -/
theorem SoftmaxLayer_Forward_is_softmax (logMax maxValue : ℝ) (input : Mat ℝ) (x : List ℝ)
    (hL : 0 < logMax) (hcol : input.cols = [x]) (hrow : 1 ≤ x.length) :
    SoftmaxLayer.Forward ⟨Real.exp, logMax, maxValue⟩ input =
        some ⟨input.n_rows, [x.map fun a => Real.exp a / (x.map Real.exp).sum]⟩ ∧
      (∀ y ∈ x.map (fun a => Real.exp a / (x.map Real.exp).sum), 0 < y ∧ y ≤ 1) ∧
      (x.map fun a => Real.exp a / (x.map Real.exp).sum).sum = 1 :=
  ⟨SoftmaxLayer_Forward_column logMax maxValue input x hL hcol hrow,
    (softmax_entries x hrow).1, (softmax_entries x hrow).2⟩

/-- Witness of C12 on the column (0, 1), with the threshold 709. -/
theorem SoftmaxLayer_Forward_is_softmax_witness :
    ((0 : ℝ) < 709 ∧ (⟨2, [[0, 1]]⟩ : Mat ℝ).cols = [[0, 1]] ∧
      1 ≤ ([0, 1] : List ℝ).length) ∧
    (SoftmaxLayer.Forward ⟨Real.exp, 709, 1⟩ (⟨2, [[0, 1]]⟩ : Mat ℝ) =
        some ⟨(⟨2, [[0, 1]]⟩ : Mat ℝ).n_rows,
          [([0, 1] : List ℝ).map fun a => Real.exp a / (([0, 1] : List ℝ).map Real.exp).sum]⟩ ∧
      (∀ y ∈ ([0, 1] : List ℝ).map
          (fun a => Real.exp a / (([0, 1] : List ℝ).map Real.exp).sum), 0 < y ∧ y ≤ 1) ∧
      (([0, 1] : List ℝ).map fun a =>
        Real.exp a / (([0, 1] : List ℝ).map Real.exp).sum).sum = 1) :=
  ⟨⟨by norm_num, rfl, by simp⟩,
    SoftmaxLayer_Forward_is_softmax 709 1 ⟨2, [[0, 1]]⟩ [0, 1] (by norm_num) rfl (by simp)⟩

/-- C13 fails as stated: on the three examples of `exampleBatch` (`exampleCube`)
`Predict` makes the calls `ResetParameter`, `Forward`, `OutputPrediction`, `Forward`,
`OutputPrediction`, `Forward`, `OutputPrediction`: one `ResetParameter` for three
`Forward` calls, and the second and third `Forward` do not follow a
`ResetParameter`. -/
theorem Predict_resets_once_for_three_examples :
    (exampleBatch.n_cols = 3 ∧
      (FFN.Predict (linearOps Mat.first) exampleFFN exampleBatch).map
          (fun r => callsMade exampleFFN r.1) =
        some [Call.ResetParameter, Call.Forward, Call.OutputPrediction, Call.Forward,
          Call.OutputPrediction, Call.Forward, Call.OutputPrediction] ∧
      (FFN.Predict (linearOps Mat.first) exampleFFN exampleBatch).map
          (fun r => forwardsFollowReset none (callsMade exampleFFN r.1)) = some false ∧
      (FFN.Predict (linearOps Mat.first) exampleFFN exampleBatch).map
          (fun r => (callsMade exampleFFN r.1).count Call.ResetParameter) = some 1) ∧
    (exampleCube.n_slices = 3 ∧
      (CNN.Predict (linearOps Cube.first) exampleCNN exampleCube).map
          (fun r => callsMade exampleCNN r.1) =
        some [Call.ResetParameter, Call.Forward, Call.OutputPrediction, Call.Forward,
          Call.OutputPrediction, Call.Forward, Call.OutputPrediction] ∧
      (CNN.Predict (linearOps Cube.first) exampleCNN exampleCube).map
          (fun r => forwardsFollowReset none (callsMade exampleCNN r.1)) = some false ∧
      (CNN.Predict (linearOps Cube.first) exampleCNN exampleCube).map
          (fun r => (callsMade exampleCNN r.1).count Call.ResetParameter) = some 1) := by
  refine ⟨⟨?_, ?_, ?_, ?_⟩, ⟨?_, ?_, ?_, ?_⟩⟩ <;> decide

/-- C13 as amended: an `Evaluate` that returns has called `ResetParameter`
directly before its one `Forward`. `Predict` on a batch of n >= 1 examples calls
`ResetParameter` once, directly before the `Forward` of example 0; it makes n
`Forward` calls, each followed by `OutputPrediction`, so every `Forward` of `Predict`
follows a `ResetParameter` exactly when n = 1. -/
theorem ResetParameter_once_per_Predict_and_Evaluate [Inhabited α]
    (cF : Collaborators Net (Mat α) α) (cC : Collaborators Net (Cube α) α)
    (sF : FFN Net α) (sC : CNN Net α) (X : Mat α) (Q : Cube α)
    (hX : 1 ≤ X.n_cols) (hQ : 1 ≤ Q.n_slices) :
    ((∃ s' R, FFN.Predict cF sF X = some (s', R) ∧
        callsMade sF s' = Call.ResetParameter :: loopCalls X.n_cols ∧
        (callsMade sF s').take 2 = [Call.ResetParameter, Call.Forward] ∧
        (callsMade sF s').count Call.ResetParameter = 1 ∧
        (callsMade sF s').count Call.Forward = X.n_cols ∧
        (forwardsFollowReset none (callsMade sF s') = true ↔ X.n_cols = 1)) ∧
      (∀ parameters i flag s' loss,
        FFN.Evaluate cF sF parameters i flag = some (s', loss) →
          callsMade sF s' = [Call.ResetParameter, Call.Forward, Call.OutputError] ∧
          forwardsFollowReset none (callsMade sF s') = true)) ∧
    ((∃ s' R, CNN.Predict cC sC Q = some (s', R) ∧
        callsMade sC s' = Call.ResetParameter :: loopCalls Q.n_slices ∧
        (callsMade sC s').take 2 = [Call.ResetParameter, Call.Forward] ∧
        (callsMade sC s').count Call.ResetParameter = 1 ∧
        (callsMade sC s').count Call.Forward = Q.n_slices ∧
        (forwardsFollowReset none (callsMade sC s') = true ↔ Q.n_slices = 1)) ∧
      (∀ parameters i flag s' loss,
        CNN.Evaluate cC sC parameters i flag = some (s', loss) →
          callsMade sC s' = [Call.ResetParameter, Call.Forward, Call.OutputError] ∧
          forwardsFollowReset none (callsMade sC s') = true)) := by
  refine ⟨⟨⟨_, _, FFN_Predict_eq cF sF X hX, ?_⟩, ?_⟩, ⟨⟨_, _, CNN_Predict_eq cC sC Q hQ, ?_⟩, ?_⟩⟩
  · rw [callsMade_append sF _ (Call.ResetParameter :: loopCalls X.n_cols) rfl]
    refine ⟨rfl, ?_, ?_, ?_, ?_⟩
    · obtain ⟨k, hk⟩ : ∃ k, X.n_cols = k + 1 := ⟨X.n_cols - 1, by omega⟩
      simp [hk, loopCalls]
    · simp [loopCalls_count_ResetParameter]
    · simp [loopCalls_count_Forward]
    · rw [forwardsFollowReset_Predict]
      simp only [decide_eq_true_eq]
      omega
  · intro parameters i flag s' loss h
    rw [callsMade_append sF s' _ (FFN_Evaluate_calls cF sF s' parameters i flag loss h)]
    exact ⟨rfl, rfl⟩
  · rw [callsMade_append sC _ (Call.ResetParameter :: loopCalls Q.n_slices) rfl]
    refine ⟨rfl, ?_, ?_, ?_, ?_⟩
    · obtain ⟨k, hk⟩ : ∃ k, Q.n_slices = k + 1 := ⟨Q.n_slices - 1, by omega⟩
      simp [hk, loopCalls]
    · simp [loopCalls_count_ResetParameter]
    · simp [loopCalls_count_Forward]
    · rw [forwardsFollowReset_Predict]
      simp only [decide_eq_true_eq]
      omega
  · intro parameters i flag s' loss h
    rw [callsMade_append sC s' _ (CNN_Evaluate_calls cC sC s' parameters i flag loss h)]
    exact ⟨rfl, rfl⟩


/-- Witness of C13 as amended: `Predict` on the three examples of `exampleBatch`
and `exampleCube`, and the `Evaluate` at sample 1 that returns `evaluatedFFN`
(`evaluatedCNN`). -/
theorem ResetParameter_once_per_Predict_and_Evaluate_witness :
    (1 ≤ exampleBatch.n_cols ∧ 1 ≤ exampleCube.n_slices ∧
      FFN.Evaluate (linearOps Mat.first) trainedFFN trainedFFN.parameter 1 true =
        some (evaluatedFFN, 2809) ∧
      CNN.Evaluate (linearOps Cube.first) trainedCNN trainedCNN.parameter 1 true =
        some (evaluatedCNN, 2809)) ∧
    (∃ s' R, FFN.Predict (linearOps Mat.first) trainedFFN exampleBatch = some (s', R) ∧
        callsMade trainedFFN s' = Call.ResetParameter :: loopCalls exampleBatch.n_cols ∧
        (callsMade trainedFFN s').take 2 = [Call.ResetParameter, Call.Forward] ∧
        (callsMade trainedFFN s').count Call.ResetParameter = 1 ∧
        (callsMade trainedFFN s').count Call.Forward = exampleBatch.n_cols ∧
        (forwardsFollowReset none (callsMade trainedFFN s') = true ↔
          exampleBatch.n_cols = 1)) ∧
    (callsMade trainedFFN evaluatedFFN =
        [Call.ResetParameter, Call.Forward, Call.OutputError] ∧
      forwardsFollowReset none (callsMade trainedFFN evaluatedFFN) = true) ∧
    (∃ s' R, CNN.Predict (linearOps Cube.first) trainedCNN exampleCube = some (s', R) ∧
        callsMade trainedCNN s' = Call.ResetParameter :: loopCalls exampleCube.n_slices ∧
        (callsMade trainedCNN s').take 2 = [Call.ResetParameter, Call.Forward] ∧
        (callsMade trainedCNN s').count Call.ResetParameter = 1 ∧
        (callsMade trainedCNN s').count Call.Forward = exampleCube.n_slices ∧
        (forwardsFollowReset none (callsMade trainedCNN s') = true ↔
          exampleCube.n_slices = 1)) ∧
    (callsMade trainedCNN evaluatedCNN =
        [Call.ResetParameter, Call.Forward, Call.OutputError] ∧
      forwardsFollowReset none (callsMade trainedCNN evaluatedCNN) = true) :=
  ⟨⟨by decide, by decide, by decide, by decide⟩,
    (ResetParameter_once_per_Predict_and_Evaluate (linearOps Mat.first) (linearOps Cube.first)
      trainedFFN trainedCNN exampleBatch exampleCube (by decide) (by decide)).1.1,
    (ResetParameter_once_per_Predict_and_Evaluate (linearOps Mat.first) (linearOps Cube.first)
      trainedFFN trainedCNN exampleBatch exampleCube (by decide) (by decide)).1.2
        trainedFFN.parameter 1 true evaluatedFFN 2809 (by decide),
    (ResetParameter_once_per_Predict_and_Evaluate (linearOps Mat.first) (linearOps Cube.first)
      trainedFFN trainedCNN exampleBatch exampleCube (by decide) (by decide)).2.1,
    (ResetParameter_once_per_Predict_and_Evaluate (linearOps Mat.first) (linearOps Cube.first)
      trainedFFN trainedCNN exampleBatch exampleCube (by decide) (by decide)).2.2
        trainedCNN.parameter 1 true evaluatedCNN 2809 (by decide)⟩

/-- C14: `SoftmaxLayer::Backward` is the identity on the backpropagated error. For
every input activation and every `gy` the gradient `g` is `gy`, with the same
dimensions and the same entries in every column, and it is the same for any two
input activations. -/
theorem SoftmaxLayer_Backward_is_identity (input input' gy : Mat α) :
    SoftmaxLayer.Backward input gy = gy ∧
      (SoftmaxLayer.Backward input gy).n_rows = gy.n_rows ∧
      (SoftmaxLayer.Backward input gy).n_cols = gy.n_cols ∧
      (∀ j, (SoftmaxLayer.Backward input gy).col j = gy.col j) ∧
      SoftmaxLayer.Backward input gy = SoftmaxLayer.Backward input' gy :=
  ⟨rfl, rfl, rfl, fun _ => rfl, rfl⟩

/-- C15: `Predict` is index-safe exactly on the non-empty batches. An access
outside `predictors` or `responses` makes `Predict` fail, and the output layer
yields predictions of one size; then `Predict` returns a result if and only if the
batch has at least one example (column for `FFN`, slice for `CNN`). On a batch
without examples the access to example 0 is outside `predictors`, column 0 is
outside the matrix `responses` of zero columns whatever the prediction, and
`Predict` returns no result. -/
theorem Predict_index_safe_iff_batch_nonempty [Inhabited α]
    (cF : Collaborators Net (Mat α) α) (cC : Collaborators Net (Cube α) α)
    (sF : FFN Net α) (sC : CNN Net α) (X : Mat α) (Q : Cube α) :
    (((FFN.Predict cF sF X).isSome = true ↔ 1 ≤ X.n_cols) ∧
      (X.n_cols = 0 →
        X.colVec 0 = none ∧
        (∀ rows v, (Mat.alloc rows X.n_cols : Mat α).setCol 0 v = none) ∧
        FFN.Predict cF sF X = none)) ∧
    (((CNN.Predict cC sC Q).isSome = true ↔ 1 ≤ Q.n_slices) ∧
      (Q.n_slices = 0 →
        Q.slicesRange 0 0 = none ∧
        (∀ rows v, (Mat.alloc rows Q.n_slices : Mat α).setCol 0 v = none) ∧
        CNN.Predict cC sC Q = none)) := by
  refine ⟨⟨⟨?_, ?_⟩, ?_⟩, ⟨⟨?_, ?_⟩, ?_⟩⟩
  · intro h
    by_contra hn
    rw [FFN_Predict_empty cF sF X (by omega)] at h
    simp at h
  · intro h
    rw [FFN_Predict_eq cF sF X h]
    rfl
  · intro h
    refine ⟨Mat_colVec_eq_none X 0 (by simp [Mat.n_cols] at h; simp [h]), ?_,
      FFN_Predict_empty cF sF X h⟩
    intro rows v
    rw [h]
    exact Mat_alloc_setCol_empty rows v
  · intro h
    by_contra hn
    rw [CNN_Predict_empty cC sC Q (by omega)] at h
    simp at h
  · intro h
    rw [CNN_Predict_eq cC sC Q h]
    rfl
  · intro h
    refine ⟨Cube_slicesRange_eq_none Q 0 (by simp [Cube.n_slices] at h; simp [h]), ?_,
      CNN_Predict_empty cC sC Q h⟩
    intro rows v
    rw [h]
    exact Mat_alloc_setCol_empty rows v

/-- Witness of C15 on the batches without examples `emptyBatch` and `emptyCube`. -/
theorem Predict_index_safe_iff_batch_nonempty_witness :
    (emptyBatch.n_cols = 0 ∧ emptyCube.n_slices = 0) ∧
    (emptyBatch.colVec 0 = none ∧
      (∀ rows v, (Mat.alloc rows emptyBatch.n_cols : Mat Int).setCol 0 v = none) ∧
      FFN.Predict (linearOps Mat.first) exampleFFN emptyBatch = none) ∧
    (emptyCube.slicesRange 0 0 = none ∧
      (∀ rows v, (Mat.alloc rows emptyCube.n_slices : Mat Int).setCol 0 v = none) ∧
      CNN.Predict (linearOps Cube.first) exampleCNN emptyCube = none) :=
  ⟨⟨by decide, by decide⟩,
    (Predict_index_safe_iff_batch_nonempty (linearOps Mat.first) (linearOps Cube.first)
      exampleFFN exampleCNN emptyBatch emptyCube).1.2 (by decide),
    (Predict_index_safe_iff_batch_nonempty (linearOps Mat.first) (linearOps Cube.first)
      exampleFFN exampleCNN emptyBatch emptyCube).2.2 (by decide)⟩

end Properties
end mlpack
